import Mathlib

/-!
Verification of the PeeapDev/location postal-address engine.

This file is a shallow embedding, in Lean 4, of the parts of the Python
source that the checked properties talk about:

* `backend/app/utils/luhn.py`               (Luhn check digits)
* `backend/app/services/pda_id.py`          (PDA-ID generate / parse / validate)
* `backend/app/services/geohash.py`         (geohash encode / decode)
* `backend/app/api/v1/geography.py`         (region / district / zone allocation and locking)
* `backend/app/services/confidence.py`      (confidence scoring)
* `backend/app/services/spatial_validation.py` (spatial validation pipeline)

Modelling conventions:

* Python strings are `List Char`; only ASCII digit strings matter for the
  properties proved here, so `Char.isDigit` stands in for `str.isdigit`
  and for the regex class `\d`.
* Python floats are modelled as exact rationals.  All float literals in
  the relevant code are short decimals, and the geohash arithmetic is
  dyadic, so no rounding behaviour is lost on the inputs the theorems
  quantify over.
* Fallible code (raising `ValueError` and friends) returns `Option` or
  `Except`.
* Database and PostGIS round trips are modelled by explicit oracle
  records (`SpatialDb`); an exception raised by the driver is an
  `Except.error` carrying the exception text.
-/

/-! ## Luhn (backend/app/utils/luhn.py) -/

/-- Value of an ASCII decimal digit character, as `int(d)` does on it. -/
def charVal (c : Char) : Nat := c.toNat - 48

/-- The decimal digits of a Python string, as values:
`[int(d) for d in number_str if d.isdigit()]`. -/
def digitsOf (s : List Char) : List Nat := (s.filter Char.isDigit).map charVal

/-- The doubling step of the Luhn algorithm: `d *= 2; if d > 9: d -= 9`. -/
def luhnDouble (d : Nat) : Nat := if 2 * d > 9 then 2 * d - 9 else 2 * d

/-- Whether index `i` is visited by `range(len(digits) - 1, -1, -2)`,
the doubling loop of `calculate_luhn_check_digit`: the indices
`n-1, n-3, n-5, ...`. -/
def calcDoubled (n i : Nat) : Bool := i + 1 ≤ n && (n - 1 - i) % 2 == 0

/-- Whether index `i` is visited by `range(len(digits) - 2, -1, -2)`,
the doubling loop of `validate_luhn`: the indices `n-2, n-4, ...`. -/
def validateDoubled (n i : Nat) : Bool := i + 2 ≤ n && (n - 2 - i) % 2 == 0

/-- `List.map` that also passes the element index, starting at `k`. -/
def mapWithIdx (f : Nat → α → β) : Nat → List α → List β
  | _, [] => []
  | k, a :: l => f k a :: mapWithIdx f (k + 1) l

/-- `calculate_luhn_check_digit` from `luhn.py`: filter the digits,
double every second digit starting from the rightmost one (the loop
`for i in range(len(digits) - 1, -1, -2)` mutates indices
`n-1, n-3, ...`), sum, and return `(10 - (total % 10)) % 10`. -/
def calculate_luhn_check_digit (s : List Char) : Nat :=
  let digits := digitsOf s
  let total :=
    (mapWithIdx (fun i d => if calcDoubled digits.length i then luhnDouble d else d) 0 digits).sum
  (10 - total % 10) % 10

/-- `validate_luhn` from `luhn.py`: filter the digits, reject fewer than
two of them, double every second digit starting from the second-to-last
(the loop `for i in range(len(digits) - 2, -1, -2)`), and accept iff the
sum is divisible by ten. -/
def validate_luhn (s : List Char) : Bool :=
  let digits := digitsOf s
  if digits.length < 2 then false
  else
    (mapWithIdx (fun i d => if validateDoubled digits.length i then luhnDouble d else d)
        0 digits).sum % 10 == 0

/-- Right-to-left alternating Luhn sum: the head of the list is the
rightmost digit; the flag says whether the current digit is doubled.
Used to state the spec-side formulations of the Luhn scan. -/
def luhnSumAlt (b : Bool) : List Nat → Nat
  | [] => 0
  | d :: r => (if b then luhnDouble d else d) + luhnSumAlt (!b) r

/-- Check digit obtained by doubling the digits at positions 0, 2, 4, ...
counted from the rightmost digit (0-indexed): the amended reading of the
spec sentence for `compute_check_digit`. -/
def spec_check_digit_even (s : List Char) : Nat :=
  (10 - luhnSumAlt true (digitsOf s).reverse % 10) % 10

/-- Check digit obtained by doubling the digits at positions 1, 3, 5, ...
counted from the rightmost digit (0-indexed): the formula the spec
literally states for `compute_check_digit`. -/
def spec_check_digit_odd (s : List Char) : Nat :=
  (10 - luhnSumAlt false (digitsOf s).reverse % 10) % 10

/-! ### Luhn lemmas -/

lemma toNat_bounds_of_isDigit (c : Char) (h : c.isDigit = true) :
    48 ≤ c.toNat ∧ c.toNat ≤ 57 := by
  simp only [Char.isDigit, ge_iff_le, Bool.and_eq_true, decide_eq_true_eq] at h
  obtain ⟨h1, h2⟩ := h
  rw [UInt32.le_def, BitVec.le_def] at h1 h2
  exact ⟨h1, h2⟩

lemma char_eq_of_toNat_eq (c d : Char) (h : c.toNat = d.toNat) : c = d := by
  apply Char.ext
  apply UInt32.eq_of_toBitVec_eq
  exact BitVec.toNat_injective h

lemma charVal_le_nine (c : Char) (h : c.isDigit = true) : charVal c ≤ 9 := by
  have := toNat_bounds_of_isDigit c h
  unfold charVal
  omega

lemma charVal_inj (c d : Char) (hc : c.isDigit = true) (hd : d.isDigit = true)
    (h : charVal c = charVal d) : c = d := by
  have hc2 := toNat_bounds_of_isDigit c hc
  have hd2 := toNat_bounds_of_isDigit d hd
  apply char_eq_of_toNat_eq
  unfold charVal at h
  omega

lemma mapWithIdx_append (f : Nat → α → β) (k : Nat) (l m : List α) :
    mapWithIdx f k (l ++ m) = mapWithIdx f k l ++ mapWithIdx f (k + l.length) m := by
  induction l generalizing k with
  | nil => simp [mapWithIdx]
  | cons a t ih =>
      show f k a :: mapWithIdx f (k + 1) (t ++ m)
          = f k a :: mapWithIdx f (k + 1) t ++ mapWithIdx f (k + (a :: t).length) m
      rw [ih (k + 1), List.length_cons]
      have h : k + 1 + t.length = k + (t.length + 1) := by omega
      rw [h]
      rfl

lemma mapWithIdx_congr (f g : Nat → α → β) (k : Nat) (l : List α)
    (h : ∀ i a, k ≤ i → i < k + l.length → f i a = g i a) :
    mapWithIdx f k l = mapWithIdx g k l := by
  induction l generalizing k with
  | nil => rfl
  | cons a t ih =>
      simp only [mapWithIdx]
      congr 1
      · exact h k a (Nat.le_refl k) (by simp)
      · exact ih (k + 1) (fun i a h1 h2 => h i a (by omega) (by simp at h2 ⊢; omega))

lemma bool_eq_of_iff {a b : Bool} (h : a = true ↔ b = true) : a = b := by
  cases a <;> cases b <;> simp_all

lemma luhnSumAlt_nil (b : Bool) : luhnSumAlt b [] = 0 := rfl

lemma luhnSumAlt_cons (b : Bool) (d : Nat) (l : List Nat) :
    luhnSumAlt b (d :: l) = (if b then luhnDouble d else d) + luhnSumAlt (!b) l := rfl

lemma parity_flag_flip (par : Nat) : ((par + 1) % 2 == 0) = !(par % 2 == 0) := by
  rcases Nat.mod_two_eq_zero_or_one par with h | h <;> simp [Nat.add_mod, h]

lemma sum_mapWithIdx_par (l : List Nat) : ∀ par : Nat,
    (mapWithIdx (fun i d => if (l.length - 1 - i + par) % 2 == 0 then luhnDouble d else d)
        0 l).sum = luhnSumAlt (par % 2 == 0) l.reverse := by
  induction l using List.reverseRecOn with
  | nil => intro par; simp [mapWithIdx, luhnSumAlt]
  | append_singleton m a ih =>
      intro par
      rw [mapWithIdx_append, List.sum_append]
      have hlast : mapWithIdx
          (fun i d => if ((m ++ [a]).length - 1 - i + par) % 2 == 0 then luhnDouble d else d)
          (0 + m.length) [a]
          = [if par % 2 == 0 then luhnDouble a else a] := by
        simp [mapWithIdx]
      have hcongr : mapWithIdx
          (fun i d => if ((m ++ [a]).length - 1 - i + par) % 2 == 0 then luhnDouble d else d)
          0 m
          = mapWithIdx
          (fun i d => if (m.length - 1 - i + (par + 1)) % 2 == 0 then luhnDouble d else d)
          0 m := by
        apply mapWithIdx_congr
        intro i x h1 h2
        simp only [Nat.zero_add] at h2
        have : (m ++ [a]).length - 1 - i + par = m.length - 1 - i + (par + 1) := by
          simp only [List.length_append, List.length_singleton]
          omega
        rw [this]
      rw [hlast, hcongr, ih (par + 1)]
      rw [List.reverse_append]
      simp only [List.reverse_singleton, List.singleton_append, luhnSumAlt_cons, List.sum_cons,
        List.sum_nil, parity_flag_flip]
      omega

lemma calcDoubled_eq (n i : Nat) (h : i < n) :
    calcDoubled n i = ((n - 1 - i + 0) % 2 == 0) := by
  apply bool_eq_of_iff
  simp only [calcDoubled, Bool.and_eq_true, decide_eq_true_eq, beq_iff_eq]
  omega

lemma validateDoubled_eq (n i : Nat) (h : i < n) :
    validateDoubled n i = ((n - 1 - i + 1) % 2 == 0) := by
  apply bool_eq_of_iff
  simp only [validateDoubled, Bool.and_eq_true, decide_eq_true_eq, beq_iff_eq]
  omega

lemma calc_total_eq_alt (digits : List Nat) :
    (mapWithIdx (fun i d => if calcDoubled digits.length i then luhnDouble d else d)
        0 digits).sum = luhnSumAlt true digits.reverse := by
  have hcongr : mapWithIdx (fun i d => if calcDoubled digits.length i then luhnDouble d else d)
      0 digits
      = mapWithIdx
        (fun i d => if (digits.length - 1 - i + 0) % 2 == 0 then luhnDouble d else d)
        0 digits := by
    apply mapWithIdx_congr
    intro i x h1 h2
    rw [calcDoubled_eq digits.length i (by omega)]
  rw [hcongr, sum_mapWithIdx_par digits 0]
  rfl

lemma validate_total_eq_alt (digits : List Nat) :
    (mapWithIdx (fun i d => if validateDoubled digits.length i then luhnDouble d else d)
        0 digits).sum = luhnSumAlt false digits.reverse := by
  have hcongr : mapWithIdx
      (fun i d => if validateDoubled digits.length i then luhnDouble d else d) 0 digits
      = mapWithIdx
        (fun i d => if (digits.length - 1 - i + 1) % 2 == 0 then luhnDouble d else d)
        0 digits := by
    apply mapWithIdx_congr
    intro i x h1 h2
    rw [validateDoubled_eq digits.length i (by omega)]
  rw [hcongr, sum_mapWithIdx_par digits 1]
  rfl

lemma validate_luhn_eq_alt (s : List Char) :
    validate_luhn s
      = if (digitsOf s).length < 2 then false
        else (luhnSumAlt false (digitsOf s).reverse % 10 == 0) := by
  unfold validate_luhn
  rcases Nat.lt_or_ge (digitsOf s).length 2 with h | h
  · rw [if_pos h, if_pos h]
  · rw [if_neg (by omega), if_neg (by omega), validate_total_eq_alt]

lemma luhnSumAlt_append (x y : List Nat) (b : Bool) :
    luhnSumAlt b (x ++ y)
      = luhnSumAlt b x + luhnSumAlt (if x.length % 2 == 0 then b else !b) y := by
  induction x generalizing b with
  | nil => simp [luhnSumAlt]
  | cons d r ih =>
      simp only [List.cons_append, luhnSumAlt_cons, ih (!b), List.length_cons,
        parity_flag_flip]
      rcases Nat.mod_two_eq_zero_or_one r.length with h | h <;>
        simp [h, Nat.add_assoc]

lemma luhn_transform_mod_ten_inj :
    ∀ (g : Bool) (x y : Fin 10), x ≠ y →
      (if g then luhnDouble x.val else x.val) % 10
        ≠ (if g then luhnDouble y.val else y.val) % 10 := by
  decide

/-- C2: for every string of decimal digits accepted by `validate_luhn`,
changing exactly one digit of it to any different digit makes
`validate_luhn` return `false` (Luhn single-error detection). -/
theorem validate_luhn_detects_single_digit_change
    (a b : List Char) (c c2 : Char)
    (ha : ∀ x ∈ a, x.isDigit = true) (hb : ∀ x ∈ b, x.isDigit = true)
    (hc : c.isDigit = true) (hc2 : c2.isDigit = true) (hne : c ≠ c2)
    (hvalid : validate_luhn (a ++ c :: b) = true) :
    validate_luhn (a ++ c2 :: b) = false := by
  have hdig : ∀ (d : Char), d.isDigit = true →
      digitsOf (a ++ d :: b) = a.map charVal ++ charVal d :: b.map charVal := by
    intro d hd
    unfold digitsOf
    rw [List.filter_eq_self.mpr]
    · simp
    · intro x hx
      simp only [List.mem_append, List.mem_cons] at hx
      rcases hx with h | h | h
      · exact ha x h
      · exact h ▸ hd
      · exact hb x h
  have hlen : ∀ (d : Char), (a.map charVal ++ charVal d :: b.map charVal).length
      = a.length + b.length + 1 := by
    intro d; simp; omega
  -- rewrite both runs of validate_luhn through the alternating sum
  rw [validate_luhn_eq_alt] at hvalid ⊢
  rw [hdig c hc, hlen c] at hvalid
  rw [hdig c2 hc2, hlen c2]
  by_cases hsmall : a.length + b.length + 1 < 2
  · rw [if_pos hsmall] at hvalid
    exact absurd hvalid (by simp)
  · rw [if_neg hsmall] at hvalid ⊢
    -- decompose the reversed digit lists around the changed digit
    have hrev : ∀ (d : Char), (a.map charVal ++ charVal d :: b.map charVal).reverse
        = (b.map charVal).reverse ++ charVal d :: (a.map charVal).reverse := by
      intro d; simp
    rw [hrev c] at hvalid
    rw [hrev c2]
    set X := (b.map charVal).reverse with hX
    set Y := (a.map charVal).reverse with hY
    set g := (if X.length % 2 == 0 then false else !false) with hg
    have hsum : ∀ (d : Char), luhnSumAlt false (X ++ charVal d :: Y)
        = luhnSumAlt false X
          + ((if g then luhnDouble (charVal d) else charVal d) + luhnSumAlt (!g) Y) := by
      intro d
      rw [luhnSumAlt_append, ← hg, luhnSumAlt_cons]
    rw [hsum c] at hvalid
    rw [hsum c2]
    -- the changed position contributes differently mod 10
    have hvc : charVal c ≤ 9 := charVal_le_nine c hc
    have hvc2 : charVal c2 ≤ 9 := charVal_le_nine c2 hc2
    have hvne : charVal c ≠ charVal c2 := fun h => hne (charVal_inj c c2 hc hc2 h)
    have hkey := luhn_transform_mod_ten_inj g ⟨charVal c, by omega⟩ ⟨charVal c2, by omega⟩
      (by simpa [Fin.ext_iff] using hvne)
    have hkey2 : (if g then luhnDouble (charVal c) else charVal c) % 10
        ≠ (if g then luhnDouble (charVal c2) else charVal c2) % 10 := hkey
    simp only [beq_iff_eq] at hvalid
    simp only [beq_eq_false_iff_ne, ne_eq]
    omega

/-- Witness for C2 at the concrete valid string "26", changing the final
digit to give "27". -/
theorem validate_luhn_detects_single_digit_change_witness :
    (∀ x ∈ [Char.ofNat 50], x.isDigit = true) ∧ (∀ x ∈ ([] : List Char), x.isDigit = true) ∧
    Char.isDigit (Char.ofNat 54) = true ∧ Char.isDigit (Char.ofNat 55) = true ∧
    Char.ofNat 54 ≠ Char.ofNat 55 ∧
    validate_luhn [Char.ofNat 50, Char.ofNat 54] = true ∧
    validate_luhn [Char.ofNat 50, Char.ofNat 55] = false :=
  ⟨by decide, by decide, by decide, by decide, by decide, by decide,
    validate_luhn_detects_single_digit_change [Char.ofNat 50] [] (Char.ofNat 54)
      (Char.ofNat 55) (by decide) (by decide) (by decide) (by decide) (by decide)
      (by decide)⟩

/-- C3 (amended): `calculate_luhn_check_digit` doubles every second digit
at positions 0, 2, 4, ... counted from the rightmost digit (0-indexed),
subtracts 9 from any doubled digit exceeding 9, sums all digits, and
returns `(10 - (sum mod 10)) mod 10`. -/
theorem calculate_luhn_check_digit_doubles_even_positions (s : List Char) :
    calculate_luhn_check_digit s = spec_check_digit_even s := by
  simp only [calculate_luhn_check_digit, spec_check_digit_even]
  rw [calc_total_eq_alt]

/-- Counterexample to C3 as stated: on the single digit "1" the code
returns 8 (it doubles the rightmost digit, position 0), while the
formula of the claim (doubling positions 1, 3, 5, ...) returns 9. -/
theorem calculate_luhn_check_digit_odd_counterexample :
    calculate_luhn_check_digit [Char.ofNat 49] = 8 ∧
    spec_check_digit_odd [Char.ofNat 49] = 9 ∧
    calculate_luhn_check_digit [Char.ofNat 49] ≠ spec_check_digit_odd [Char.ofNat 49] := by
  refine ⟨by decide, by decide, by decide⟩

/-- C10: `validate_luhn` ignores non-digit characters (its result equals
`validate_luhn` of the digit subsequence), and returns `false` whenever
the input holds fewer than two digit characters. -/
theorem validate_luhn_ignores_nondigits (s : List Char) :
    validate_luhn s = validate_luhn (s.filter Char.isDigit) ∧
    ((s.filter Char.isDigit).length < 2 → validate_luhn s = false) := by
  have hdig : digitsOf (s.filter Char.isDigit) = digitsOf s := by
    unfold digitsOf
    rw [List.filter_filter]
    simp
  constructor
  · unfold validate_luhn
    rw [hdig]
  · intro hlen
    unfold validate_luhn
    rw [if_pos]
    unfold digitsOf
    rw [List.length_map]
    exact hlen

/-- Witness for C10 on the string "a1", which has a single digit. -/
theorem validate_luhn_ignores_nondigits_witness :
    ([Char.ofNat 97, Char.ofNat 49].filter Char.isDigit).length < 2 ∧
    validate_luhn [Char.ofNat 97, Char.ofNat 49] = false :=
  ⟨by decide, (validate_luhn_ignores_nondigits [Char.ofNat 97, Char.ofNat 49]).2 (by decide)⟩

/-! ## PDA-ID service (backend/app/services/pda_id.py)

`PDAIDService.generate`, `parse` and `validate_format`, together with the
helpers `extract_numeric_from_pda_id` and `validate_pda_id_check_digit`
from `luhn.py` that they call.  Python `str.split("-")` is modelled by
`pySplit`; the two anchored regexes are modelled by structural predicates
on the dash-separated parts, which is equivalent because every
non-separator part of both patterns is a run of `\d` and therefore
dash-free. -/

/-- Python `str.split(sep)` for a one-character separator. -/
def pySplit (sep : Char) : List Char → List (List Char)
  | [] => [[]]
  | c :: rest =>
      match pySplit sep rest with
      | [] => if c == sep then [[], [c]] else [[c]]
      | h :: t => if c == sep then [] :: h :: t else (c :: h) :: t

/-- Value of a decimal digit string, the accumulator form of Python
`int` on a string of digits. -/
def intValue (s : List Char) : Nat := s.foldl (fun a c => 10 * a + charVal c) 0

/-- Python `int(s)` on the strings handled here: succeeds exactly on
nonempty all-digit strings (sign, whitespace and unicode digits never
occur in the PDA-ID code paths). -/
def strToNat (s : List Char) : Option Nat :=
  if s.isEmpty then none
  else if s.all Char.isDigit then some (intValue s) else none

/-- Decimal digits of a natural number, most significant first; the
first argument is recursion fuel (any value above `n` is enough). -/
def natDigitsAux : Nat → Nat → List Nat
  | 0, _ => []
  | fuel + 1, n => if n < 10 then [n] else natDigitsAux fuel (n / 10) ++ [n % 10]

/-- Decimal digits of a natural number, most significant first. -/
def natDigits (n : Nat) : List Nat := natDigitsAux (n + 1) n

/-- The character of a decimal digit value. -/
def digitChar (d : Nat) : Char := Char.ofNat (48 + d)

/-- Python `str(n)` for a natural number. -/
def natRepr (n : Nat) : List Char := (natDigits n).map digitChar

/-- Python `str.zfill(width)` on a digit string: left-pad with zeros. -/
def zfill (s : List Char) (width : Nat) : List Char :=
  List.replicate (width - s.length) (digitChar 0) ++ s

/-- The anchored regex `^\d{4}-\d{3}$` checked by `PDAIDService.generate`
on its `zone_code` argument. -/
def zone_code_pattern (s : List Char) : Bool :=
  match pySplit (Char.ofNat 45) s with
  | [p, seg] => p.length == 4 && p.all Char.isDigit && seg.length == 3 && seg.all Char.isDigit
  | _ => false

/-- The anchored regex `^SL-\d{4}-\d{3}-\d{6}-\d$` (`PDA_ID_PATTERN`). -/
def pda_id_pattern (s : List Char) : Bool :=
  match pySplit (Char.ofNat 45) s with
  | [c, p, seg, seqs, chk] =>
      c == [Char.ofNat 83, Char.ofNat 76]
        && p.length == 4 && p.all Char.isDigit
        && seg.length == 3 && seg.all Char.isDigit
        && seqs.length == 6 && seqs.all Char.isDigit
        && chk.length == 1 && chk.all Char.isDigit
  | _ => false

/-- `validate_pda_id_check_digit` from `luhn.py`: split on dashes,
require five parts beginning with `SL`, recompute the Luhn check digit of
`parts[1] + parts[2] + parts[3]` and compare it with `int(parts[4])`;
any `ValueError` (from `int`) yields `False`. -/
def validate_pda_id_check_digit (s : List Char) : Bool :=
  match pySplit (Char.ofNat 45) s with
  | [c, p, seg, seqs, chk] =>
      if c ≠ [Char.ofNat 83, Char.ofNat 76] then false
      else
        match strToNat chk with
        | none => false
        | some cd => cd == calculate_luhn_check_digit (p ++ seg ++ seqs)
  | _ => false

/-- `PDAIDService.validate_format`: the anchored regex must match and the
check digit must validate. -/
def validate_format (s : List Char) : Bool :=
  pda_id_pattern s && validate_pda_id_check_digit s

/-- The dictionary returned by `PDAIDService.parse`. -/
structure ParsedPdaId where
  country : List Char
  primary_code : List Char
  segment : List Char
  zone_code : List Char
  sequence : Nat
  check_digit : Nat
  full_id : List Char
  deriving Repr, DecidableEq

/-- `PDAIDService.parse`: raise (return `none`) unless `validate_format`
holds, then split on dashes and build the component dictionary.  The
`int` conversions cannot fail here because the regex guarantees digit
runs, so they are modelled by `intValue`. -/
def parse (s : List Char) : Option ParsedPdaId :=
  if validate_format s then
    match pySplit (Char.ofNat 45) s with
    | [c, p, seg, seqs, chk] =>
        some { country := c, primary_code := p, segment := seg,
               zone_code := p ++ Char.ofNat 45 :: seg,
               sequence := intValue seqs, check_digit := intValue chk, full_id := s }
    | _ => none
  else none

/-- `PDAIDService.generate`: validate the zone-code regex and the
sequence range, zero-pad the sequence to six digits, compute the Luhn
check digit of `primary_code + segment + sequence_str` and assemble
`SL-XXXX-YYY-NNNNNN-C`.  A `ValueError` is `none`. -/
def generate (zone_code : List Char) (sequence : Nat) : Option (List Char) :=
  if zone_code_pattern zone_code then
    if 1 ≤ sequence ∧ sequence ≤ 999999 then
      match pySplit (Char.ofNat 45) zone_code with
      | [primary_code, segment] =>
          let sequence_str := zfill (natRepr sequence) 6
          let numeric_part := primary_code ++ segment ++ sequence_str
          let check_digit := calculate_luhn_check_digit numeric_part
          some ([Char.ofNat 83, Char.ofNat 76] ++ Char.ofNat 45 :: primary_code
            ++ Char.ofNat 45 :: segment ++ Char.ofNat 45 :: sequence_str
            ++ Char.ofNat 45 :: [digitChar check_digit])
      | _ => none
    else none
  else none

/-! ### PDA-ID lemmas -/

lemma pySplit_ne_nil (sep : Char) (s : List Char) : pySplit sep s ≠ [] := by
  cases s with
  | nil => simp [pySplit]
  | cons c rest =>
      unfold pySplit
      rcases h : pySplit sep rest with _ | ⟨h1, t⟩ <;> by_cases hc : c == sep <;>
        simp [hc]

lemma pySplit_no_sep (sep : Char) (s : List Char) (h : sep ∉ s) : pySplit sep s = [s] := by
  induction s with
  | nil => rfl
  | cons c rest ih =>
      have hc : c ≠ sep := fun he => h (he ▸ List.mem_cons_self c rest)
      have hr : sep ∉ rest := fun hm => h (List.mem_cons_of_mem c hm)
      unfold pySplit
      rw [ih hr]
      simp [beq_eq_false_iff_ne.mpr hc]

lemma pySplit_cons_sep (sep : Char) (a r : List Char) (ha : sep ∉ a) :
    pySplit sep (a ++ sep :: r) = a :: pySplit sep r := by
  induction a with
  | nil =>
      simp only [List.nil_append]
      rw [pySplit]
      rcases h : pySplit sep r with _ | ⟨h1, t⟩
      · exact absurd h (pySplit_ne_nil sep r)
      · simp
  | cons c a ih =>
      have hc : c ≠ sep := fun he => ha (he ▸ List.mem_cons_self c a)
      have ha2 : sep ∉ a := fun hm => ha (List.mem_cons_of_mem c hm)
      simp only [List.cons_append]
      rw [pySplit, ih ha2]
      simp [beq_eq_false_iff_ne.mpr hc]

lemma pySplit_five (sep : Char) (c p s q k : List Char)
    (hc : sep ∉ c) (hp : sep ∉ p) (hs : sep ∉ s) (hq : sep ∉ q) (hk : sep ∉ k) :
    pySplit sep (c ++ sep :: (p ++ sep :: (s ++ sep :: (q ++ sep :: k))))
      = [c, p, s, q, k] := by
  rw [pySplit_cons_sep sep c _ hc, pySplit_cons_sep sep p _ hp,
    pySplit_cons_sep sep s _ hs, pySplit_cons_sep sep q _ hq, pySplit_no_sep sep k hk]

lemma isDigit_ne_dash (c : Char) (h : c.isDigit = true) : c ≠ Char.ofNat 45 := by
  intro he
  have := toNat_bounds_of_isDigit c h
  rw [he] at this
  exact absurd this (by decide)

lemma dash_not_mem_of_digits (l : List Char) (h : ∀ c ∈ l, c.isDigit = true) :
    Char.ofNat 45 ∉ l := fun hm => isDigit_ne_dash _ (h _ hm) rfl

lemma digitChar_isDigit (d : Nat) (h : d ≤ 9) : (digitChar d).isDigit = true := by
  interval_cases d <;> decide

lemma charVal_digitChar (d : Nat) (h : d ≤ 9) : charVal (digitChar d) = d := by
  interval_cases d <;> decide

lemma natDigitsAux_lt_ten (fuel : Nat) : ∀ n d, d ∈ natDigitsAux fuel n → d < 10 := by
  induction fuel with
  | zero => intro n d hd; simp [natDigitsAux] at hd
  | succ fuel ih =>
      intro n d hd
      unfold natDigitsAux at hd
      by_cases h : n < 10
      · rw [if_pos h] at hd
        simp at hd
        omega
      · rw [if_neg h] at hd
        rcases List.mem_append.mp hd with h2 | h2
        · exact ih (n / 10) d h2
        · simp at h2
          omega

/-- Value of a digit list, most significant first. -/
def natListVal (l : List Nat) : Nat := l.foldl (fun a d => 10 * a + d) 0

lemma natDigitsAux_val (fuel : Nat) : ∀ n, n < fuel → natListVal (natDigitsAux fuel n) = n := by
  induction fuel with
  | zero => intro n h; omega
  | succ fuel ih =>
      intro n h
      unfold natDigitsAux
      by_cases h10 : n < 10
      · rw [if_pos h10]
        simp [natListVal]
      · rw [if_neg h10]
        have hlt : n / 10 < fuel := by
          have := Nat.div_lt_self (by omega : 0 < n) (by omega : 1 < 10)
          omega
        have := ih (n / 10) hlt
        unfold natListVal at this ⊢
        rw [List.foldl_append, this]
        simp
        omega

lemma natDigitsAux_length (fuel : Nat) : ∀ n k, n < fuel → n < 10 ^ k → 1 ≤ k →
    (natDigitsAux fuel n).length ≤ k := by
  induction fuel with
  | zero => intro n k h _ _; omega
  | succ fuel ih =>
      intro n k h hk h1
      unfold natDigitsAux
      by_cases h10 : n < 10
      · rw [if_pos h10]
        simpa using h1
      · rw [if_neg h10]
        have hk2 : 2 ≤ k := by
          by_contra hcon
          have : k = 1 := by omega
          rw [this] at hk
          simp at hk
          omega
        have hdiv : n / 10 < 10 ^ (k - 1) := by
          rw [Nat.div_lt_iff_lt_mul (by omega : 0 < 10)]
          calc n < 10 ^ k := hk
            _ = 10 ^ (k - 1) * 10 := by
                rw [← Nat.pow_succ]
                congr 1
                omega
        have hfuel : n / 10 < fuel := by
          have := Nat.div_lt_self (by omega : 0 < n) (by omega : 1 < 10)
          omega
        have := ih (n / 10) (k - 1) hfuel hdiv (by omega)
        simp only [List.length_append, List.length_singleton]
        omega

lemma natDigits_lt_ten (n : Nat) : ∀ d ∈ natDigits n, d < 10 :=
  fun d hd => natDigitsAux_lt_ten (n + 1) n d hd

lemma natDigits_val (n : Nat) : natListVal (natDigits n) = n :=
  natDigitsAux_val (n + 1) n (Nat.lt_succ_self n)

lemma natDigits_length (n k : Nat) (hk : n < 10 ^ k) (h1 : 1 ≤ k) :
    (natDigits n).length ≤ k :=
  natDigitsAux_length (n + 1) n k (Nat.lt_succ_self n) hk h1

lemma natRepr_digits (n : Nat) : ∀ c ∈ natRepr n, c.isDigit = true := by
  intro c hc
  unfold natRepr at hc
  rcases List.mem_map.mp hc with ⟨d, hd, rfl⟩
  exact digitChar_isDigit d (by have := natDigits_lt_ten n d hd; omega)

lemma foldl_digitChar (l : List Nat) : ∀ (a : Nat), (∀ d ∈ l, d < 10) →
    List.foldl (fun a c => 10 * a + charVal c) a (l.map digitChar)
      = List.foldl (fun a d => 10 * a + d) a l := by
  induction l with
  | nil => intro a _; rfl
  | cons d t ih =>
      intro a h
      simp only [List.map_cons, List.foldl_cons]
      rw [charVal_digitChar d (by have := h d (List.mem_cons_self d t); omega)]
      exact ih _ (fun x hx => h x (List.mem_cons_of_mem d hx))

lemma intValue_map_digitChar (l : List Nat) (h : ∀ d ∈ l, d < 10) :
    intValue (l.map digitChar) = natListVal l :=
  foldl_digitChar l 0 h

lemma intValue_natRepr (n : Nat) : intValue (natRepr n) = n := by
  unfold natRepr
  rw [intValue_map_digitChar (natDigits n) (natDigits_lt_ten n), natDigits_val]

lemma intValue_zfill (s : List Char) (w : Nat) : intValue (zfill s w) = intValue s := by
  unfold zfill intValue
  rw [List.foldl_append]
  congr 1
  induction w - s.length with
  | zero => rfl
  | succ k ih =>
      rw [List.replicate_succ, List.foldl_cons]
      simpa using ih

lemma zfill_length (s : List Char) (w : Nat) (h : s.length ≤ w) :
    (zfill s w).length = w := by
  unfold zfill
  simp
  omega

lemma zfill_digits (s : List Char) (w : Nat) (h : ∀ c ∈ s, c.isDigit = true) :
    ∀ c ∈ zfill s w, c.isDigit = true := by
  intro c hc
  unfold zfill at hc
  rcases List.mem_append.mp hc with h2 | h2
  · rw [List.eq_of_mem_replicate h2]
    decide
  · exact h c h2

lemma check_digit_le_nine (s : List Char) : calculate_luhn_check_digit s ≤ 9 := by
  simp only [calculate_luhn_check_digit]
  omega

/-- C1: for every zone code of the form four digits, a dash, then three
digits, and every sequence in 1..=999999, `parse (generate zc seq)`
succeeds and returns the same primary code, segment, and sequence, and
`validate_format (generate zc seq)` is true. -/
theorem pda_id_round_trip (p s : List Char) (seq : Nat)
    (hp : p.length = 4) (hpd : ∀ c ∈ p, c.isDigit = true)
    (hs : s.length = 3) (hsd : ∀ c ∈ s, c.isDigit = true)
    (h1 : 1 ≤ seq) (h2 : seq ≤ 999999) :
    ∃ out, generate (p ++ Char.ofNat 45 :: s) seq = some out ∧
      validate_format out = true ∧
      ∃ r, parse out = some r ∧ r.primary_code = p ∧ r.segment = s ∧ r.sequence = seq := by
  have hdp : Char.ofNat 45 ∉ p := dash_not_mem_of_digits p hpd
  have hds : Char.ofNat 45 ∉ s := dash_not_mem_of_digits s hsd
  have hsplit : pySplit (Char.ofNat 45) (p ++ Char.ofNat 45 :: s) = [p, s] := by
    rw [pySplit_cons_sep _ _ _ hdp, pySplit_no_sep _ _ hds]
  have hzpat : zone_code_pattern (p ++ Char.ofNat 45 :: s) = true := by
    unfold zone_code_pattern
    rw [hsplit]
    simp [hp, hs, List.all_eq_true.mpr hpd, List.all_eq_true.mpr hsd]
  set qs := zfill (natRepr seq) 6 with hqs
  have hrl : (natRepr seq).length ≤ 6 := by
    unfold natRepr
    rw [List.length_map]
    exact natDigits_length seq 6 (lt_of_le_of_lt h2 (by norm_num)) (by omega)
  have hqlen : qs.length = 6 := zfill_length _ _ hrl
  have hqd : ∀ c ∈ qs, c.isDigit = true := zfill_digits _ _ (natRepr_digits seq)
  have hqdash : Char.ofNat 45 ∉ qs := dash_not_mem_of_digits qs hqd
  have hqval : intValue qs = seq := by rw [hqs, intValue_zfill, intValue_natRepr]
  set chk := calculate_luhn_check_digit (p ++ s ++ qs) with hchk
  have hchk9 : chk ≤ 9 := check_digit_le_nine _
  have hchkd : (digitChar chk).isDigit = true := digitChar_isDigit chk hchk9
  set out := [Char.ofNat 83, Char.ofNat 76] ++ Char.ofNat 45 :: p ++ Char.ofNat 45 :: s
    ++ Char.ofNat 45 :: qs ++ Char.ofNat 45 :: [digitChar chk] with hout
  have hgen : generate (p ++ Char.ofNat 45 :: s) seq = some out := by
    unfold generate
    rw [if_pos hzpat, if_pos (⟨h1, h2⟩ : 1 ≤ seq ∧ seq ≤ 999999), hsplit]
  have hsplit_out : pySplit (Char.ofNat 45) out
      = [[Char.ofNat 83, Char.ofNat 76], p, s, qs, [digitChar chk]] := by
    have hkd : Char.ofNat 45 ∉ [digitChar chk] := by
      intro hm
      rcases List.mem_singleton.mp hm with h
      exact isDigit_ne_dash _ hchkd h.symm
    have hshape : out = [Char.ofNat 83, Char.ofNat 76]
        ++ Char.ofNat 45 :: (p ++ Char.ofNat 45 :: (s ++ Char.ofNat 45
          :: (qs ++ Char.ofNat 45 :: [digitChar chk]))) := by
      rw [hout]
      simp [List.append_assoc]
    rw [hshape]
    exact pySplit_five _ _ _ _ _ _ (by decide) hdp hds hqdash hkd
  have hpat : pda_id_pattern out = true := by
    unfold pda_id_pattern
    rw [hsplit_out]
    simp [hp, hs, hqlen, List.all_eq_true.mpr hpd, List.all_eq_true.mpr hsd,
      List.all_eq_true.mpr hqd, hchkd]
  have hchkval : validate_pda_id_check_digit out = true := by
    unfold validate_pda_id_check_digit
    rw [hsplit_out]
    have hsn : strToNat [digitChar chk] = some chk := by
      unfold strToNat
      rw [if_neg (by simp), if_pos (by simp [hchkd])]
      unfold intValue
      simp [charVal_digitChar chk hchk9]
    simp only [hsn, ne_eq, not_true_eq_false, if_false]
    simp
    rw [hchk, List.append_assoc]
  have hvf : validate_format out = true := by
    unfold validate_format
    rw [hpat, hchkval]
    rfl
  refine ⟨out, hgen, hvf, ?_⟩
  have hparse : parse out = some ⟨[Char.ofNat 83, Char.ofNat 76], p, s, p ++ Char.ofNat 45 :: s, intValue qs, intValue [digitChar chk], out⟩ := by
    unfold parse
    rw [if_pos hvf, hsplit_out]
  exact ⟨_, hparse, rfl, rfl, hqval⟩

/-- Witness for C1 at zone code "2310-047" and sequence 142. -/
theorem pda_id_round_trip_witness :
    ([Char.ofNat 50, Char.ofNat 51, Char.ofNat 49, Char.ofNat 48] : List Char).length = 4 ∧
    (∀ c ∈ ([Char.ofNat 50, Char.ofNat 51, Char.ofNat 49, Char.ofNat 48] : List Char),
      c.isDigit = true) ∧
    ([Char.ofNat 48, Char.ofNat 52, Char.ofNat 55] : List Char).length = 3 ∧
    (∀ c ∈ ([Char.ofNat 48, Char.ofNat 52, Char.ofNat 55] : List Char), c.isDigit = true) ∧
    1 ≤ 142 ∧ 142 ≤ 999999 ∧
    (∃ out, generate ([Char.ofNat 50, Char.ofNat 51, Char.ofNat 49, Char.ofNat 48]
        ++ Char.ofNat 45 :: [Char.ofNat 48, Char.ofNat 52, Char.ofNat 55]) 142 = some out ∧
      validate_format out = true ∧
      ∃ r, parse out = some r
        ∧ r.primary_code = [Char.ofNat 50, Char.ofNat 51, Char.ofNat 49, Char.ofNat 48]
        ∧ r.segment = [Char.ofNat 48, Char.ofNat 52, Char.ofNat 55] ∧ r.sequence = 142) :=
  ⟨by decide, by decide, by decide, by decide, by decide, by decide,
    pda_id_round_trip [Char.ofNat 50, Char.ofNat 51, Char.ofNat 49, Char.ofNat 48]
      [Char.ofNat 48, Char.ofNat 52, Char.ofNat 55] 142 (by decide) (by decide) (by decide)
      (by decide) (by decide) (by decide)⟩

/-! ## Geohash codec (backend/app/services/geohash.py)

Latitude and longitude are exact rationals.  All the interval endpoints
produced by the bisection are dyadic rationals with small numerators, so
the Python double arithmetic of the source is exact on them and the
rational model is faithful. -/

/-- The geohash base-32 alphabet of `geohash.py`. -/
def BASE32 : List Char := "0123456789bcdefghjkmnpqrstuvwxyz".toList

/-- The mutable state of both geohash loops: the current latitude range,
longitude range, and which axis the next bit refines. -/
structure GeohashState where
  latRange : ℚ × ℚ
  lngRange : ℚ × ℚ
  isLongitude : Bool

/-- Initial state of `encode` and `decode`: full latitude and longitude
ranges, longitude first. -/
def geohashInit : GeohashState := ⟨(-90, 90), (-180, 180), true⟩

/-- One bit of `encode`: compare the coordinate with the midpoint of the
active range, emit the bit, and narrow the range. -/
def encodeStep (latitude longitude : ℚ) (st : GeohashState) : Bool × GeohashState :=
  if st.isLongitude then
    let mid := (st.lngRange.1 + st.lngRange.2) / 2
    if longitude ≥ mid then (true, ⟨st.latRange, (mid, st.lngRange.2), false⟩)
    else (false, ⟨st.latRange, (st.lngRange.1, mid), false⟩)
  else
    let mid := (st.latRange.1 + st.latRange.2) / 2
    if latitude ≥ mid then (true, ⟨(mid, st.latRange.2), st.lngRange, true⟩)
    else (false, ⟨(st.latRange.1, mid), st.lngRange, true⟩)

/-- Accumulate `n` bits of `encode` into the bit buffer
(`bits = (bits << 1) | bit`). -/
def encodeBits (latitude longitude : ℚ) : Nat → Nat → GeohashState → Nat × GeohashState
  | 0, bits, st => (bits, st)
  | n + 1, bits, st =>
      let r := encodeStep latitude longitude st
      encodeBits latitude longitude n (bits * 2 + (if r.1 then 1 else 0)) r.2

/-- Emit `n` base-32 characters, five bits each (the body of the
`while len(geohash) < precision` loop). -/
def encodeChars (latitude longitude : ℚ) : Nat → GeohashState → List Char
  | 0, _ => []
  | n + 1, st =>
      let r := encodeBits latitude longitude 5 0 st
      BASE32.getD r.1 (Char.ofNat 48) :: encodeChars latitude longitude n r.2

/-- `encode(latitude, longitude, precision)` from `geohash.py`. -/
def encode (latitude longitude : ℚ) (precision : Nat) : List Char :=
  encodeChars latitude longitude precision geohashInit

/-- One bit of `decode`: narrow the active range to the half selected by
the bit. -/
def decodeStep (bit : Bool) (st : GeohashState) : GeohashState :=
  if st.isLongitude then
    let mid := (st.lngRange.1 + st.lngRange.2) / 2
    if bit then ⟨st.latRange, (mid, st.lngRange.2), false⟩
    else ⟨st.latRange, (st.lngRange.1, mid), false⟩
  else
    let mid := (st.latRange.1 + st.latRange.2) / 2
    if bit then ⟨(mid, st.latRange.2), st.lngRange, true⟩
    else ⟨(st.latRange.1, mid), st.lngRange, true⟩

/-- The five bits of a base-32 symbol value, `(bits >> i) & 1` for
`i = 4, 3, 2, 1, 0`. -/
def charBits (n : Nat) : List Bool :=
  [n / 16 % 2 == 1, n / 8 % 2 == 1, n / 4 % 2 == 1, n / 2 % 2 == 1, n % 2 == 1]

/-- Process one character of `decode`: skip characters outside the
alphabet (`if char not in BASE32_MAP: continue`), otherwise replay its
five bits.  The source lowercases the string first. -/
def decodeChar (st : GeohashState) (c : Char) : GeohashState :=
  match BASE32.findIdx? (fun x => x == c.toLower) with
  | none => st
  | some bits => (charBits bits).foldl (fun s b => decodeStep b s) st

/-- `decode(geohash)` from `geohash.py`: the bounding box
`(min_lat, min_lng, max_lat, max_lng)`. -/
def decode (geohash : List Char) : ℚ × ℚ × ℚ × ℚ :=
  let st := geohash.foldl decodeChar geohashInit
  (st.latRange.1, st.lngRange.1, st.latRange.2, st.lngRange.2)

/-- `decode_center(geohash)` from `geohash.py`: the midpoint
`(lat, lng)` of the bounding box. -/
def decode_center (geohash : List Char) : ℚ × ℚ :=
  (((decode geohash).1 + (decode geohash).2.2.1) / 2,
   ((decode geohash).2.1 + (decode geohash).2.2.2) / 2)

/-- Latitude extent of the decoded bounding box. -/
def latWidth (geohash : List Char) : ℚ := (decode geohash).2.2.1 - (decode geohash).1

/-- Longitude extent of the decoded bounding box. -/
def lngWidth (geohash : List Char) : ℚ := (decode geohash).2.2.2 - (decode geohash).2.1

/-- Number of latitude bits among the first `k` bits. -/
def latSteps (k : Nat) : Nat := k / 2

/-- Number of longitude bits among the first `k` bits (longitude is
refined first). -/
def lonSteps (k : Nat) : Nat := (k + 1) / 2

/-- Invariant after `k` bisection steps: range widths are fully
determined by the step count, and the axis flag alternates. -/
def StateInv (k : Nat) (st : GeohashState) : Prop :=
  st.latRange.2 - st.latRange.1 = 180 / 2 ^ latSteps k ∧
  st.lngRange.2 - st.lngRange.1 = 360 / 2 ^ lonSteps k ∧
  st.isLongitude = (k % 2 == 0)

/-! ### Geohash lemmas -/

lemma stateInv_init : StateInv 0 geohashInit := by
  refine ⟨by norm_num [geohashInit, latSteps], by norm_num [geohashInit, lonSteps], rfl⟩

lemma half_width (w : ℚ) (k : Nat) (h : w = 360 / 2 ^ k) : w / 2 = 360 / 2 ^ (k + 1) := by
  rw [h, pow_succ, div_div]

lemma half_width_lat (w : ℚ) (k : Nat) (h : w = 180 / 2 ^ k) : w / 2 = 180 / 2 ^ (k + 1) := by
  rw [h, pow_succ, div_div]

lemma decodeStep_inv (k : Nat) (st : GeohashState) (bit : Bool) (h : StateInv k st) :
    StateInv (k + 1) (decodeStep bit st) := by
  obtain ⟨hlat, hlng, hflag⟩ := h
  by_cases hke : k % 2 = 0
  · -- k even: the flag is true, a longitude bit
    have hfl : st.isLongitude = true := by rw [hflag]; simp [hke]
    have hlatS : latSteps (k + 1) = latSteps k := by unfold latSteps; omega
    have hlonS : lonSteps (k + 1) = lonSteps k + 1 := by unfold lonSteps; omega
    have hflag2 : ((k + 1) % 2 == 0) = false := by
      rw [beq_eq_false_iff_ne]
      omega
    have hw : (st.lngRange.2 - st.lngRange.1) / 2 = 360 / 2 ^ lonSteps (k + 1) := by
      rw [hlonS]
      exact half_width _ _ hlng
    unfold decodeStep
    rw [if_pos hfl]
    cases bit
    · rw [if_neg (by simp)]
      exact ⟨by rw [hlatS]; exact hlat, by rw [← hw]; ring, hflag2.symm⟩
    · rw [if_pos rfl]
      exact ⟨by rw [hlatS]; exact hlat, by rw [← hw]; ring, hflag2.symm⟩
  · -- k odd: the flag is false, a latitude bit
    have hfl : st.isLongitude = false := by
      rw [hflag, beq_eq_false_iff_ne]
      omega
    have hlatS : latSteps (k + 1) = latSteps k + 1 := by unfold latSteps; omega
    have hlonS : lonSteps (k + 1) = lonSteps k := by unfold lonSteps; omega
    have hflag2 : ((k + 1) % 2 == 0) = true := by
      rw [beq_iff_eq]
      omega
    have hw : (st.latRange.2 - st.latRange.1) / 2 = 180 / 2 ^ latSteps (k + 1) := by
      rw [hlatS]
      exact half_width_lat _ _ hlat
    unfold decodeStep
    rw [if_neg (by rw [hfl]; simp)]
    cases bit
    · rw [if_neg (by simp)]
      exact ⟨by rw [← hw]; ring, by rw [hlonS]; exact hlng, hflag2.symm⟩
    · rw [if_pos rfl]
      exact ⟨by rw [← hw]; ring, by rw [hlonS]; exact hlng, hflag2.symm⟩

lemma decodeBits_inv (bl : List Bool) : ∀ (k : Nat) (st : GeohashState), StateInv k st →
    StateInv (k + bl.length) (bl.foldl (fun s b => decodeStep b s) st) := by
  induction bl with
  | nil => intro k st h; simpa using h
  | cons b t ih =>
      intro k st h
      have := ih (k + 1) (decodeStep b st) (decodeStep_inv k st b h)
      simp only [List.foldl_cons, List.length_cons]
      have harith : k + (t.length + 1) = k + 1 + t.length := by omega
      rw [harith]
      exact this

lemma decodeChar_inv (c : Char) (k : Nat) (st : GeohashState)
    (hvalid : (BASE32.findIdx? (fun x => x == c.toLower)).isSome = true)
    (h : StateInv k st) : StateInv (k + 5) (decodeChar st c) := by
  unfold decodeChar
  rcases hidx : BASE32.findIdx? (fun x => x == c.toLower) with _ | bits
  · rw [hidx] at hvalid; simp at hvalid
  · have := decodeBits_inv (charBits bits) k st h
    simpa [charBits] using this

lemma decode_foldl_inv (g : List Char) : ∀ (k : Nat) (st : GeohashState),
    (∀ c ∈ g, (BASE32.findIdx? (fun x => x == c.toLower)).isSome = true) →
    StateInv k st → StateInv (k + 5 * g.length) (g.foldl decodeChar st) := by
  induction g with
  | nil => intro k st _ h; simpa using h
  | cons c t ih =>
      intro k st hvalid h
      have hc := hvalid c (List.mem_cons_self c t)
      have ht := fun x hx => hvalid x (List.mem_cons_of_mem c hx)
      have := ih (k + 5) (decodeChar st c) ht (decodeChar_inv c k st hc h)
      simp only [List.foldl_cons, List.length_cons]
      have harith : k + 5 * (t.length + 1) = k + 5 + 5 * t.length := by omega
      rw [harith]
      exact this

lemma encodeBits_lt (latitude longitude : ℚ) :
    ∀ (n bits : Nat) (st : GeohashState),
      (encodeBits latitude longitude n bits st).1 < (bits + 1) * 2 ^ n := by
  intro n
  induction n with
  | zero => intro bits st; simp [encodeBits]
  | succ n ih =>
      intro bits st
      unfold encodeBits
      have := ih (bits * 2 + (if (encodeStep latitude longitude st).1 then 1 else 0))
        (encodeStep latitude longitude st).2
      calc (encodeBits latitude longitude n
            (bits * 2 + (if (encodeStep latitude longitude st).1 then 1 else 0))
            (encodeStep latitude longitude st).2).1
          < (bits * 2 + (if (encodeStep latitude longitude st).1 then 1 else 0) + 1) * 2 ^ n :=
            this
        _ ≤ (bits + 1) * 2 ^ (n + 1) := by
            have hle : bits * 2 + (if (encodeStep latitude longitude st).1 then 1 else 0) + 1
                ≤ (bits + 1) * 2 := by
              cases (encodeStep latitude longitude st).1 <;> simp <;> omega
            calc (bits * 2 + (if (encodeStep latitude longitude st).1 then 1 else 0) + 1) * 2 ^ n
                ≤ (bits + 1) * 2 * 2 ^ n := Nat.mul_le_mul_right _ hle
              _ = (bits + 1) * 2 ^ (n + 1) := by ring

lemma base32_getD_valid : ∀ bits < 32,
    (BASE32.findIdx? (fun x => x == (BASE32.getD bits (Char.ofNat 48)).toLower)).isSome
      = true := by
  decide

lemma encodeChars_valid (latitude longitude : ℚ) : ∀ (p : Nat) (st : GeohashState),
    ∀ c ∈ encodeChars latitude longitude p st,
      (BASE32.findIdx? (fun x => x == c.toLower)).isSome = true := by
  intro p
  induction p with
  | zero => intro st c hc; simp [encodeChars] at hc
  | succ p ih =>
      intro st c hc
      unfold encodeChars at hc
      rcases List.mem_cons.mp hc with h | h
      · have hlt : (encodeBits latitude longitude 5 0 st).1 < 32 := by
          have := encodeBits_lt latitude longitude 5 0 st
          simpa using this
        rw [h]
        exact base32_getD_valid _ hlt
      · exact ih _ c h

lemma encode_length (latitude longitude : ℚ) : ∀ (p : Nat) (st : GeohashState),
    (encodeChars latitude longitude p st).length = p := by
  intro p
  induction p with
  | zero => intro st; rfl
  | succ p ih => intro st; unfold encodeChars; simp [ih]

lemma decode_encode_widths (latitude longitude : ℚ) (p : Nat) :
    latWidth (encode latitude longitude p) = 180 / 2 ^ latSteps (5 * p) ∧
    lngWidth (encode latitude longitude p) = 360 / 2 ^ lonSteps (5 * p) := by
  have hv := encodeChars_valid latitude longitude p geohashInit
  have hinv := decode_foldl_inv (encode latitude longitude p) 0 geohashInit hv stateInv_init
  have hlen : (encode latitude longitude p).length = p := encode_length latitude longitude p geohashInit
  rw [hlen, Nat.zero_add] at hinv
  obtain ⟨hlat, hlng, _⟩ := hinv
  constructor
  · unfold latWidth decode
    simpa using hlat
  · unfold lngWidth decode
    simpa using hlng

lemma latWidth_encode_pos (latitude longitude : ℚ) (p : Nat) :
    0 < latWidth (encode latitude longitude p) := by
  rw [(decode_encode_widths latitude longitude p).1]
  positivity

lemma lngWidth_encode_pos (latitude longitude : ℚ) (p : Nat) :
    0 < lngWidth (encode latitude longitude p) := by
  rw [(decode_encode_widths latitude longitude p).2]
  positivity

/-- C4: for every latitude and longitude in valid range and precisions
`1 ≤ p < q ≤ 12`, the point returned by `decode_center (encode lat lng p)`
lies strictly inside the bounding box returned by
`decode (encode lat lng p)`, and both the width and the height of that
bounding box shrink strictly as the precision grows from `p` to `q`. -/
theorem geohash_center_in_box_and_shrink (latitude longitude : ℚ) (p q : Nat)
    (hlat1 : -90 ≤ latitude) (hlat2 : latitude ≤ 90)
    (hlng1 : -180 ≤ longitude) (hlng2 : longitude ≤ 180)
    (hp : 1 ≤ p) (hpq : p < q) (hq : q ≤ 12) :
    ((decode (encode latitude longitude p)).1
        < (decode_center (encode latitude longitude p)).1 ∧
      (decode_center (encode latitude longitude p)).1
        < (decode (encode latitude longitude p)).2.2.1 ∧
      (decode (encode latitude longitude p)).2.1
        < (decode_center (encode latitude longitude p)).2 ∧
      (decode_center (encode latitude longitude p)).2
        < (decode (encode latitude longitude p)).2.2.2) ∧
    latWidth (encode latitude longitude q) < latWidth (encode latitude longitude p) ∧
    lngWidth (encode latitude longitude q) < lngWidth (encode latitude longitude p) := by
  have hlw := latWidth_encode_pos latitude longitude p
  have hgw := lngWidth_encode_pos latitude longitude p
  unfold latWidth at hlw
  unfold lngWidth at hgw
  constructor
  · unfold decode_center
    refine ⟨by linarith, by linarith, by linarith, by linarith⟩
  · obtain ⟨hlp, hgp⟩ := decode_encode_widths latitude longitude p
    obtain ⟨hlq, hgq⟩ := decode_encode_widths latitude longitude q
    have hlatS : latSteps (5 * p) < latSteps (5 * q) := by unfold latSteps; omega
    have hlonS : lonSteps (5 * p) < lonSteps (5 * q) := by unfold lonSteps; omega
    constructor
    · rw [hlp, hlq]
      apply div_lt_div_of_pos_left (by norm_num) (by positivity)
      exact pow_lt_pow_right₀ (by norm_num) hlatS
    · rw [hgp, hgq]
      apply div_lt_div_of_pos_left (by norm_num) (by positivity)
      exact pow_lt_pow_right₀ (by norm_num) hlonS

/-- Witness for C4 at latitude 8, longitude -13, precisions 1 and 2. -/
theorem geohash_center_in_box_and_shrink_witness :
    (-90 : ℚ) ≤ 8 ∧ (8 : ℚ) ≤ 90 ∧ (-180 : ℚ) ≤ -13 ∧ (-13 : ℚ) ≤ 180 ∧
    1 ≤ 1 ∧ 1 < 2 ∧ 2 ≤ 12 ∧
    (((decode (encode 8 (-13) 1)).1 < (decode_center (encode 8 (-13) 1)).1 ∧
      (decode_center (encode 8 (-13) 1)).1 < (decode (encode 8 (-13) 1)).2.2.1 ∧
      (decode (encode 8 (-13) 1)).2.1 < (decode_center (encode 8 (-13) 1)).2 ∧
      (decode_center (encode 8 (-13) 1)).2 < (decode (encode 8 (-13) 1)).2.2.2) ∧
    latWidth (encode 8 (-13) 2) < latWidth (encode 8 (-13) 1) ∧
    lngWidth (encode 8 (-13) 2) < lngWidth (encode 8 (-13) 1)) :=
  ⟨by norm_num, by norm_num, by norm_num, by norm_num, le_refl 1, by norm_num, by norm_num,
    geohash_center_in_box_and_shrink 8 (-13) 1 2 (by norm_num) (by norm_num) (by norm_num)
      (by norm_num) (le_refl 1) (by norm_num) (by norm_num)⟩

/-! ## Geographic hierarchy allocation and locking
(backend/app/api/v1/geography.py)

The handlers are modelled as functions of the data they read from the
database: the looked-up node (`Option`, `none` when the id does not
resolve) and, for code assignment, the multiset of sibling codes already
stored at that level.  An `HTTPException` becomes a `GeoError`.  The
duplicate-name and duplicate-short-code guards of the region endpoints
take the other regions as input; response serialization is omitted. -/

/-- The `HTTPException` outcomes of the geography endpoints. -/
inductive GeoError where
  | NotFound
  | NodeLocked
  | Conflict
  | CapacityExceeded
  deriving Repr, DecidableEq

/-- Python `x or 0` applied to the `SELECT max(...)` scalar of
`create_region` (`None` and `0` are both falsy). -/
def pyMaxOrZero (m : Option Nat) : Nat :=
  match m with
  | none => 0
  | some v => if v = 0 then 0 else v

/-- Python `(x or -1)` applied to the `SELECT max(...)` scalar of
`create_district` and `create_zone`: `None` and `0` are both falsy and
collapse to `-1`. -/
def pyMaxOrNegOne (m : Option Nat) : Int :=
  match m with
  | none => -1
  | some v => if v = 0 then -1 else (v : Int)

/-- Code assignment of `create_region` (geography.py lines 112-122):
`max_code = scalar or 0`, `next_code = max_code + 1`, reject above 9.
The duplicate-name and short-code guards run before this and are
independent of the code computation. -/
def create_region_code (sibling_codes : List Nat) : Except GeoError Nat :=
  let max_code := pyMaxOrZero sibling_codes.max?
  let next_code := max_code + 1
  if next_code > 9 then .error .CapacityExceeded else .ok next_code

/-- Code assignment of `create_district` (geography.py lines 380-392):
`next_code = (max_code or -1) + 1`, reject above 9. -/
def create_district_code (sibling_codes : List Nat) : Except GeoError Int :=
  let next_code := pyMaxOrNegOne sibling_codes.max? + 1
  if next_code > 9 then .error .CapacityExceeded else .ok next_code

/-- Zone-number assignment of `create_zone` (geography.py lines 742-754):
`next_num = (max_num or -1) + 1`, reject above 99. -/
def create_zone_number (sibling_numbers : List Nat) : Except GeoError Int :=
  let next_num := pyMaxOrNegOne sibling_numbers.max? + 1
  if next_num > 99 then .error .CapacityExceeded else .ok next_num

/-- C5: the claim says every `create_region` / `create_district` /
`create_zone` call assigns `max(existing sibling codes) + 1`, so that a
still-existing sibling code is never reassigned.  The code computes
`(max_code or -1) + 1` for districts and zones, and Python `or` treats
the integer `0` as falsy: with a sole surviving sibling of code 0, the
next district code and the next zone number are 0 again, duplicating a
live sibling instead of being `max + 1 = 1`. -/
theorem create_district_zone_reuse_zero :
    create_district_code [0] = .ok 0 ∧
    create_zone_number [0] = .ok 0 ∧
    (0 : Nat) ∈ [0] ∧
    pyMaxOrZero ([0] : List Nat).max? + 1 = 1 ∧
    create_region_code [] = .ok 1 ∧
    create_region_code [1, 2] = .ok 3 ∧
    create_region_code [9] = .error .CapacityExceeded := by
  refine ⟨rfl, rfl, by decide, by decide, rfl, rfl, rfl⟩

/-- Stored fields of a region touched by `update_region` / `delete_region`. -/
structure RegionRec where
  name : String
  short_code : String
  description : Option String
  is_active : Bool
  is_locked : Bool
  deriving Repr, DecidableEq

/-- The optional fields of `RegionUpdate` (schemas/geography.py). -/
structure RegionUpdate where
  name : Option String
  short_code : Option String
  description : Option String
  is_active : Option Bool
  deriving Repr, DecidableEq

/-- Stored fields of a district touched by `update_district` /
`delete_district`. -/
structure DistrictRec where
  name : String
  short_code : String
  capital : Option String
  description : Option String
  population : Option Nat
  area_sq_km : Option ℚ
  is_active : Bool
  is_locked : Bool
  deriving Repr, DecidableEq

/-- The optional fields of `DistrictUpdate`. -/
structure DistrictUpdate where
  name : Option String
  short_code : Option String
  capital : Option String
  description : Option String
  population : Option Nat
  area_sq_km : Option ℚ
  is_active : Option Bool
  deriving Repr, DecidableEq

/-- Stored fields of a zone touched by `update_zone` / `delete_zone`. -/
structure ZoneRec where
  name : Option String
  description : Option String
  zone_type : Option String
  center_lat : Option ℚ
  center_lng : Option ℚ
  geometry : Option String
  is_active : Bool
  is_locked : Bool
  deriving Repr, DecidableEq

/-- The optional fields of `ZoneUpdate`. -/
structure ZoneUpdate where
  name : Option String
  description : Option String
  zone_type : Option String
  center_lat : Option ℚ
  center_lng : Option ℚ
  is_active : Option Bool
  geometry : Option String
  deriving Repr, DecidableEq

/-- `if data.field is not None: node.field = data.field` on a required
column. -/
def applyOpt (new : Option α) (old : α) : α :=
  match new with
  | some v => v
  | none => old

/-- `if data.field is not None: node.field = data.field` on a nullable
column. -/
def applyOptField (new : Option α) (old : Option α) : Option α :=
  match new with
  | some v => some v
  | none => old

/-- The duplicate-name guard of `update_region`: another region (the
query excludes the updated id, so `others` are the other regions)
already carries the requested name. -/
def region_name_conflict (others : List RegionRec) (upd : RegionUpdate) : Bool :=
  match upd.name with
  | some n => others.any (fun o => o.name == n)
  | none => false

/-- The duplicate-short-code guard of `update_region`. -/
def region_short_code_conflict (others : List RegionRec) (upd : RegionUpdate) : Bool :=
  match upd.short_code with
  | some sc => others.any (fun o => o.short_code == sc.toUpper)
  | none => false

/-- `update_region` (geography.py lines 188-260): 404 when the region is
missing, 400 `NodeLocked` when `region.is_locked`, 400 `Conflict` on a
duplicate name or short code, otherwise apply the provided fields. -/
def update_region : Option RegionRec → List RegionRec → RegionUpdate →
    Except GeoError RegionRec
  | none, _, _ => .error .NotFound
  | some r, others, upd =>
      if r.is_locked then .error .NodeLocked
      else if region_name_conflict others upd then .error .Conflict
      else if region_short_code_conflict others upd then .error .Conflict
      else .ok { r with
        name := applyOpt upd.name r.name,
        short_code := applyOpt (upd.short_code.map String.toUpper) r.short_code,
        description := applyOptField upd.description r.description,
        is_active := applyOpt upd.is_active r.is_active }

/-- `delete_region` (geography.py lines 263-287): 404 when missing, 400
`NodeLocked` when locked, otherwise delete. -/
def delete_region : Option RegionRec → Except GeoError Unit
  | none => .error .NotFound
  | some r => if r.is_locked then .error .NodeLocked else .ok ()

/-- `update_district` (geography.py lines 482-555): 404 when missing,
400 `NodeLocked` when locked, otherwise apply the provided fields (no
duplicate guards at this level). -/
def update_district : Option DistrictRec → DistrictUpdate → Except GeoError DistrictRec
  | none, _ => .error .NotFound
  | some d, upd =>
      if d.is_locked then .error .NodeLocked
      else .ok { d with
        name := applyOpt upd.name d.name,
        short_code := applyOpt (upd.short_code.map String.toUpper) d.short_code,
        capital := applyOptField upd.capital d.capital,
        description := applyOptField upd.description d.description,
        population := applyOptField upd.population d.population,
        area_sq_km := applyOptField upd.area_sq_km d.area_sq_km,
        is_active := applyOpt upd.is_active d.is_active }

/-- `delete_district` (geography.py lines 558-582). -/
def delete_district : Option DistrictRec → Except GeoError Unit
  | none => .error .NotFound
  | some d => if d.is_locked then .error .NodeLocked else .ok ()

/-- `update_zone` (geography.py lines 882-964): 404 when missing, then
the provided fields are applied directly.  There is no `is_locked`
check: the handler docstring says geometry can be updated even if
locked, and nothing else in the handler consults the flag. -/
def update_zone : Option ZoneRec → ZoneUpdate → Except GeoError ZoneRec
  | none, _ => .error .NotFound
  | some z, upd =>
      .ok { z with
        name := applyOptField upd.name z.name,
        description := applyOptField upd.description z.description,
        zone_type := applyOptField upd.zone_type z.zone_type,
        center_lat := applyOptField upd.center_lat z.center_lat,
        center_lng := applyOptField upd.center_lng z.center_lng,
        is_active := applyOpt upd.is_active z.is_active,
        geometry := applyOptField upd.geometry z.geometry }

/-- `delete_zone` (geography.py lines 967-991): 404 when missing, 400
`NodeLocked` when locked, otherwise delete. -/
def delete_zone : Option ZoneRec → Except GeoError Unit
  | none => .error .NotFound
  | some z => if z.is_locked then .error .NodeLocked else .ok ()

/-- A locked zone with a name, used as the C6 counterexample input. -/
def zoneLockedEx : ZoneRec :=
  { name := some "Old name", description := none, zone_type := none, center_lat := none,
    center_lng := none, geometry := none, is_active := true, is_locked := true }

/-- A pure rename payload for the C6 counterexample. -/
def zoneRenameEx : ZoneUpdate :=
  { name := some "New name", description := none, zone_type := none, center_lat := none,
    center_lng := none, is_active := none, geometry := none }

/-- Counterexample to C6 as stated: renaming a locked zone is NOT
rejected.  `update_zone` carries no lock check, so renaming the locked
zone `zoneLockedEx` succeeds instead of failing with `NodeLocked`. -/
theorem update_zone_locked_counterexample :
    zoneLockedEx.is_locked = true ∧
    update_zone (some zoneLockedEx) zoneRenameEx
      = .ok { zoneLockedEx with name := some "New name" } ∧
    update_zone (some zoneLockedEx) zoneRenameEx ≠ .error .NodeLocked := by
  refine ⟨rfl, rfl, fun h => ?_⟩
  rw [show update_zone (some zoneLockedEx) zoneRenameEx
    = .ok { zoneLockedEx with name := some "New name" } from rfl] at h
  exact Except.noConfusion h

/-- C6 (amended): update and delete of a region or district, and delete
of a zone, fail with `NodeLocked` exactly when the node is locked, and
succeed on an unlocked existing node (update of a region also requires
no duplicate name or short code); update of a zone never consults the
lock flag and succeeds on every existing zone, locked or not. -/
lemma update_region_eq (r : RegionRec) (others : List RegionRec) (upd : RegionUpdate) :
    update_region (some r) others upd
      = if r.is_locked then .error .NodeLocked
        else if region_name_conflict others upd then .error .Conflict
        else if region_short_code_conflict others upd then .error .Conflict
        else .ok { r with
          name := applyOpt upd.name r.name,
          short_code := applyOpt (upd.short_code.map String.toUpper) r.short_code,
          description := applyOptField upd.description r.description,
          is_active := applyOpt upd.is_active r.is_active } := rfl

lemma delete_region_eq (r : RegionRec) :
    delete_region (some r)
      = if r.is_locked then .error .NodeLocked else .ok () := rfl

lemma update_district_eq (d : DistrictRec) (upd : DistrictUpdate) :
    update_district (some d) upd
      = if d.is_locked then .error .NodeLocked
        else .ok { d with
          name := applyOpt upd.name d.name,
          short_code := applyOpt (upd.short_code.map String.toUpper) d.short_code,
          capital := applyOptField upd.capital d.capital,
          description := applyOptField upd.description d.description,
          population := applyOptField upd.population d.population,
          area_sq_km := applyOptField upd.area_sq_km d.area_sq_km,
          is_active := applyOpt upd.is_active d.is_active } := rfl

lemma delete_district_eq (d : DistrictRec) :
    delete_district (some d)
      = if d.is_locked then .error .NodeLocked else .ok () := rfl

lemma update_zone_eq (z : ZoneRec) (upd : ZoneUpdate) :
    update_zone (some z) upd
      = .ok { z with
          name := applyOptField upd.name z.name,
          description := applyOptField upd.description z.description,
          zone_type := applyOptField upd.zone_type z.zone_type,
          center_lat := applyOptField upd.center_lat z.center_lat,
          center_lng := applyOptField upd.center_lng z.center_lng,
          is_active := applyOpt upd.is_active z.is_active,
          geometry := applyOptField upd.geometry z.geometry } := rfl

lemma delete_zone_eq (z : ZoneRec) :
    delete_zone (some z)
      = if z.is_locked then .error .NodeLocked else .ok () := rfl

/-- C6 (amended): update and delete of a region or district, and delete
of a zone, fail with `NodeLocked` exactly when the node is locked, and
succeed on an unlocked existing node (update of a region also requires
no duplicate name or short code); update of a zone never consults the
lock flag and succeeds on every existing zone, locked or not. -/
theorem node_lock_behavior (r : RegionRec) (others : List RegionRec) (ur : RegionUpdate)
    (d : DistrictRec) (ud : DistrictUpdate) (z : ZoneRec) (uz : ZoneUpdate)
    (hnm : region_name_conflict others ur = false)
    (hsc : region_short_code_conflict others ur = false) :
    (update_region (some r) others ur = .error .NodeLocked ↔ r.is_locked = true) ∧
    (delete_region (some r) = .error .NodeLocked ↔ r.is_locked = true) ∧
    (update_district (some d) ud = .error .NodeLocked ↔ d.is_locked = true) ∧
    (delete_district (some d) = .error .NodeLocked ↔ d.is_locked = true) ∧
    (delete_zone (some z) = .error .NodeLocked ↔ z.is_locked = true) ∧
    (∃ zNew, update_zone (some z) uz = .ok zNew) ∧
    (r.is_locked = false → ∃ rNew, update_region (some r) others ur = .ok rNew) ∧
    (d.is_locked = false → ∃ dNew, update_district (some d) ud = .ok dNew) ∧
    (r.is_locked = false → delete_region (some r) = .ok ()) ∧
    (d.is_locked = false → delete_district (some d) = .ok ()) ∧
    (z.is_locked = false → delete_zone (some z) = .ok ()) := by
  refine ⟨?_, ?_, ?_, ?_, ?_, ⟨_, update_zone_eq z uz⟩, ?_, ?_, ?_, ?_, ?_⟩
  · rcases hl : r.is_locked
    · rw [update_region_eq, hl, hnm, hsc]
      simp
    · rw [update_region_eq, hl]
      simp
  · rcases hl : r.is_locked
    · rw [delete_region_eq, hl]
      simp
    · rw [delete_region_eq, hl]
      simp
  · rcases hl : d.is_locked
    · rw [update_district_eq, hl]
      simp
    · rw [update_district_eq, hl]
      simp
  · rcases hl : d.is_locked
    · rw [delete_district_eq, hl]
      simp
    · rw [delete_district_eq, hl]
      simp
  · rcases hl : z.is_locked
    · rw [delete_zone_eq, hl]
      simp
    · rw [delete_zone_eq, hl]
      simp
  · intro hl
    rw [update_region_eq, hl, hnm, hsc]
    simp only [Bool.false_eq_true, if_false]
    exact ⟨_, rfl⟩
  · intro hl
    rw [update_district_eq, hl]
    simp only [Bool.false_eq_true, if_false]
    exact ⟨_, rfl⟩
  · intro hl
    rw [delete_region_eq, hl]
    simp
  · intro hl
    rw [delete_district_eq, hl]
    simp
  · intro hl
    rw [delete_zone_eq, hl]
    simp

/-- Witness for the amended C6 at a locked region, an unlocked district,
the locked zone `zoneLockedEx`, and all-empty update payloads. -/
theorem node_lock_behavior_witness :
    region_name_conflict [] ⟨none, none, none, none⟩ = false ∧
    region_short_code_conflict [] ⟨none, none, none, none⟩ = false ∧
    ((update_region (some ⟨"Western", "W", none, true, true⟩) [] ⟨none, none, none, none⟩
        = .error .NodeLocked ↔ (⟨"Western", "W", none, true, true⟩ : RegionRec).is_locked = true) ∧
    (delete_region (some ⟨"Western", "W", none, true, true⟩) = .error .NodeLocked
        ↔ (⟨"Western", "W", none, true, true⟩ : RegionRec).is_locked = true) ∧
    (update_district (some ⟨"Bo", "BO", none, none, none, none, true, false⟩)
        ⟨none, none, none, none, none, none, none⟩ = .error .NodeLocked
        ↔ (⟨"Bo", "BO", none, none, none, none, true, false⟩ : DistrictRec).is_locked = true) ∧
    (delete_district (some ⟨"Bo", "BO", none, none, none, none, true, false⟩) = .error .NodeLocked
        ↔ (⟨"Bo", "BO", none, none, none, none, true, false⟩ : DistrictRec).is_locked = true) ∧
    (delete_zone (some zoneLockedEx) = .error .NodeLocked ↔ zoneLockedEx.is_locked = true) ∧
    (∃ zNew, update_zone (some zoneLockedEx) ⟨none, none, none, none, none, none, none⟩
        = .ok zNew) ∧
    ((⟨"Western", "W", none, true, true⟩ : RegionRec).is_locked = false →
      ∃ rNew, update_region (some ⟨"Western", "W", none, true, true⟩) []
        ⟨none, none, none, none⟩ = .ok rNew) ∧
    ((⟨"Bo", "BO", none, none, none, none, true, false⟩ : DistrictRec).is_locked = false →
      ∃ dNew, update_district (some ⟨"Bo", "BO", none, none, none, none, true, false⟩)
        ⟨none, none, none, none, none, none, none⟩ = .ok dNew) ∧
    ((⟨"Western", "W", none, true, true⟩ : RegionRec).is_locked = false →
      delete_region (some ⟨"Western", "W", none, true, true⟩) = .ok ()) ∧
    ((⟨"Bo", "BO", none, none, none, none, true, false⟩ : DistrictRec).is_locked = false →
      delete_district (some ⟨"Bo", "BO", none, none, none, none, true, false⟩) = .ok ()) ∧
    (zoneLockedEx.is_locked = false → delete_zone (some zoneLockedEx) = .ok ())) :=
  ⟨rfl, rfl,
    node_lock_behavior ⟨"Western", "W", none, true, true⟩ [] ⟨none, none, none, none⟩
      ⟨"Bo", "BO", none, none, none, none, true, false⟩ ⟨none, none, none, none, none, none, none⟩
      zoneLockedEx ⟨none, none, none, none, none, none, none⟩ rfl rfl⟩

/-! ## Confidence scorer (backend/app/services/confidence.py)

Floats are exact rationals.  `updated_at` enters only through the age
`now - updated_at`, so `score_recency` takes that age in days directly.
Python `round(x, 2)` is modelled by rounding `100 x` to an integer;
the claims proved here depend only on the bounds of the rounding, not on
its tie-breaking. -/

/-- The five factor scores returned beside the overall score. -/
structure ConfidenceFactors where
  gps_accuracy : ℚ
  verification_method : ℚ
  completeness : ℚ
  recency : ℚ
  delivery_success : ℚ
  deriving Repr, DecidableEq

/-- `round(x, 2)`. -/
def round2 (x : ℚ) : ℚ := (round (x * 100) : ℚ) / 100

/-- `ConfidenceScorer.score_gps_accuracy`: tiered thresholds at 5, 10
and 25 meters, 0.3 when unknown. -/
def score_gps_accuracy (accuracy_m : Option ℚ) : ℚ :=
  match accuracy_m with
  | none => 0.3
  | some a => if a ≤ 5 then 1.0 else if a ≤ 10 then 0.8 else if a ≤ 25 then 0.5 else 0.2

/-- `ConfidenceScorer.score_verification_method`: the
`VERIFICATION_SCORES` lookup with default 0.3. -/
def score_verification_method (method : Option String) : ℚ :=
  match method with
  | some "field_survey" => 1.0
  | some "photo_verified" => 0.8
  | some "user_submitted" => 0.5
  | some "crowdsourced" => 0.3
  | some "imported" => 0.4
  | none => 0.3
  | some _ => 0.3

/-- Python truthiness of an optional string field: present and
nonempty. -/
def fieldPresent (f : Option String) : Bool :=
  match f with
  | some v => !v.isEmpty
  | none => false

/-- `ConfidenceScorer.score_completeness`: fraction of the two required
fields present, weighted 0.6, plus fraction of the four optional fields
present, weighted 0.4. -/
def score_completeness (street_name block house_number building_name landmark_primary
    delivery_instructions : Option String) : ℚ :=
  let required_count : ℚ :=
    (if fieldPresent street_name then 1 else 0) + (if fieldPresent landmark_primary then 1 else 0)
  let optional_count : ℚ :=
    (if fieldPresent block then 1 else 0) + (if fieldPresent house_number then 1 else 0)
      + (if fieldPresent building_name then 1 else 0)
      + (if fieldPresent delivery_instructions then 1 else 0)
  (required_count / 2) * 0.6 + (optional_count / 4) * 0.4

/-- `ConfidenceScorer.score_recency` on the age `now - updated_at` in
days (`none` when `updated_at` is `None`). -/
def score_recency (age_days : Option ℚ) : ℚ :=
  match age_days with
  | none => 0.3
  | some age => if age ≤ 180 then 1.0 else if age ≤ 365 then 0.8 else if age ≤ 730 then 0.5
      else 0.3

/-- `ConfidenceScorer.score_delivery_success`: a pass-through of the
historical rate, 0.5 when there is no history.  Note: no clamping. -/
def score_delivery_success (success_rate : Option ℚ) : ℚ :=
  match success_rate with
  | none => 0.5
  | some r => r

/-- `ConfidenceScorer.calculate`: the five factors and their weighted
sum `0.25 gps + 0.25 verification + 0.20 completeness + 0.15 recency +
0.15 delivery`, rounded to two decimals. -/
def ConfidenceScorer.calculate (accuracy_m : Option ℚ) (verification_method : Option String)
    (street_name block house_number building_name landmark_primary
      delivery_instructions : Option String)
    (age_days : Option ℚ) (delivery_success_rate : Option ℚ) : ℚ × ConfidenceFactors :=
  let factors : ConfidenceFactors :=
    { gps_accuracy := score_gps_accuracy accuracy_m,
      verification_method := score_verification_method verification_method,
      completeness := score_completeness street_name block house_number building_name
        landmark_primary delivery_instructions,
      recency := score_recency age_days,
      delivery_success := score_delivery_success delivery_success_rate }
  let overall := factors.gps_accuracy * 0.25 + factors.verification_method * 0.25
    + factors.completeness * 0.20 + factors.recency * 0.15 + factors.delivery_success * 0.15
  (round2 overall, factors)

/-- Membership in the unit interval. -/
def InUnit (x : ℚ) : Prop := 0 ≤ x ∧ x ≤ 1

lemma score_gps_in_unit (a : Option ℚ) : InUnit (score_gps_accuracy a) := by
  unfold InUnit score_gps_accuracy
  split
  · norm_num
  · split_ifs <;> norm_num

lemma score_vm_in_unit (m : Option String) : InUnit (score_verification_method m) := by
  unfold InUnit score_verification_method
  split <;> norm_num

lemma score_completeness_in_unit (sn bl hn bn lp di : Option String) :
    InUnit (score_completeness sn bl hn bn lp di) := by
  unfold InUnit score_completeness
  split_ifs <;> norm_num

lemma score_recency_in_unit (age : Option ℚ) : InUnit (score_recency age) := by
  unfold InUnit score_recency
  split
  · norm_num
  · split_ifs <;> norm_num

lemma score_delivery_in_unit (dsr : Option ℚ) (h : ∀ x, dsr = some x → 0 ≤ x ∧ x ≤ 1) :
    InUnit (score_delivery_success dsr) := by
  unfold InUnit score_delivery_success
  rcases dsr with _ | v
  · exact ⟨by norm_num, by norm_num⟩
  · exact h v rfl

lemma floor_201_half : ⌊(201 / 2 : ℚ)⌋ = 100 := by
  rw [Int.floor_eq_iff]
  norm_num

lemma round2_bounds (x : ℚ) (h0 : 0 ≤ x) (h1 : x ≤ 1) : 0 ≤ round2 x ∧ round2 x ≤ 1 := by
  unfold round2
  rw [round_eq]
  constructor
  · apply div_nonneg _ (by norm_num)
    have : (0 : ℤ) ≤ ⌊x * 100 + 1 / 2⌋ := by
      apply Int.floor_nonneg.mpr
      linarith
    exact_mod_cast this
  · rw [div_le_one (by norm_num)]
    have hle : ⌊x * 100 + 1 / 2⌋ ≤ ⌊(201 / 2 : ℚ)⌋ := by
      apply Int.floor_le_floor
      linarith
    rw [floor_201_half] at hle
    exact_mod_cast hle

/-- C7 (amended): whenever the delivery-success rate, if given, lies in
[0, 1] (as its docstring requires), `ConfidenceScorer.calculate` returns
an overall score in [0, 1] and all five factor scores in [0, 1]; the
four other factors need no precondition. -/
theorem confidence_score_in_unit_interval (accuracy_m : Option ℚ) (vm : Option String)
    (sn bl hn bn lp di : Option String) (age : Option ℚ) (dsr : Option ℚ)
    (hdsr : ∀ x, dsr = some x → 0 ≤ x ∧ x ≤ 1) :
    InUnit (ConfidenceScorer.calculate accuracy_m vm sn bl hn bn lp di age dsr).1 ∧
    InUnit (ConfidenceScorer.calculate accuracy_m vm sn bl hn bn lp di age dsr).2.gps_accuracy ∧
    InUnit (ConfidenceScorer.calculate accuracy_m vm sn bl hn bn lp di age
      dsr).2.verification_method ∧
    InUnit (ConfidenceScorer.calculate accuracy_m vm sn bl hn bn lp di age dsr).2.completeness ∧
    InUnit (ConfidenceScorer.calculate accuracy_m vm sn bl hn bn lp di age dsr).2.recency ∧
    InUnit (ConfidenceScorer.calculate accuracy_m vm sn bl hn bn lp di age
      dsr).2.delivery_success := by
  obtain ⟨hg0, hg1⟩ := score_gps_in_unit accuracy_m
  obtain ⟨hv0, hv1⟩ := score_vm_in_unit vm
  obtain ⟨hc0, hc1⟩ := score_completeness_in_unit sn bl hn bn lp di
  obtain ⟨hr0, hr1⟩ := score_recency_in_unit age
  obtain ⟨hd0, hd1⟩ := score_delivery_in_unit dsr hdsr
  refine ⟨?_, ⟨hg0, hg1⟩, ⟨hv0, hv1⟩, ⟨hc0, hc1⟩, ⟨hr0, hr1⟩, ⟨hd0, hd1⟩⟩
  unfold ConfidenceScorer.calculate
  apply round2_bounds
  · positivity
  · nlinarith

/-- Counterexample to C7 as stated: `score_delivery_success` is an
unclamped pass-through, so `delivery_success_rate = 100.0` (all other
inputs `None`) yields delivery factor 100 and overall score 15.2, far
outside [0, 1]. -/
theorem confidence_unclamped_counterexample :
    (ConfidenceScorer.calculate none none none none none none none none none
      (some 100)).2.delivery_success = 100 ∧
    (1 : ℚ) < (ConfidenceScorer.calculate none none none none none none none none none
      (some 100)).2.delivery_success ∧
    (ConfidenceScorer.calculate none none none none none none none none none
      (some 100)).1 = 76 / 5 ∧
    (1 : ℚ) < (ConfidenceScorer.calculate none none none none none none none none none
      (some 100)).1 := by
  have hval : (ConfidenceScorer.calculate none none none none none none none none none
      (some 100)).1 = 76 / 5 := by
    unfold ConfidenceScorer.calculate score_gps_accuracy score_verification_method
      score_completeness score_recency score_delivery_success fieldPresent round2
    norm_num
    rw [round_eq]
    norm_num
  have hds : (ConfidenceScorer.calculate none none none none none none none none none
      (some 100)).2.delivery_success = 100 := rfl
  refine ⟨hds, by rw [hds]; norm_num, hval, by rw [hval]; norm_num⟩

/-- Witness for the amended C7 with every input `None`. -/
theorem confidence_score_in_unit_interval_witness :
    (∀ x : ℚ, (none : Option ℚ) = some x → 0 ≤ x ∧ x ≤ 1) ∧
    (InUnit (ConfidenceScorer.calculate none none none none none none none none none none).1 ∧
    InUnit (ConfidenceScorer.calculate none none none none none none none none none
      none).2.gps_accuracy ∧
    InUnit (ConfidenceScorer.calculate none none none none none none none none none
      none).2.verification_method ∧
    InUnit (ConfidenceScorer.calculate none none none none none none none none none
      none).2.completeness ∧
    InUnit (ConfidenceScorer.calculate none none none none none none none none none
      none).2.recency ∧
    InUnit (ConfidenceScorer.calculate none none none none none none none none none
      none).2.delivery_success) :=
  ⟨fun x h => Option.noConfusion h,
    confidence_score_in_unit_interval none none none none none none none none none none
      (fun x h => Option.noConfusion h)⟩

/-! ## Spatial validation (backend/app/services/spatial_validation.py)

The database and PostGIS round trips of `SpatialValidator` are modelled
by the oracle record `SpatialDb`; a driver exception is `Except.error`
with the exception text, a fetched scalar or row list is `Except.ok`.
The haversine `distance_meters` of `geohash.py` uses transcendental
functions, so the oracle also supplies it; none of the properties proved
here depends on its values.  The `details` dict of `ValidationResult` is
not modelled; no checked property mentions it. -/

/-- `ValidationStatus` from `spatial_validation.py`. -/
inductive ValidationStatus where
  | PASSED
  | FAILED
  | WARNING
  deriving Repr, DecidableEq

/-- `ValidationType` from `spatial_validation.py`. -/
inductive ValidationType where
  | LAND_CHECK
  | ZONE_CONTAINMENT
  | ZONE_OVERLAP
  | BOUNDARY_CROSSING
  | GEOMETRY_VALID
  | COORDINATE_BOUNDS
  | GEOHASH_CONSISTENCY
  deriving Repr, DecidableEq

/-- `ValidationResult` from `spatial_validation.py` (without the
`details` dict). -/
structure ValidationResult where
  validation_type : ValidationType
  status : ValidationStatus
  message : String
  entity_id : Option String
  latitude : Option ℚ
  longitude : Option ℚ
  deriving Repr, DecidableEq

/-- Oracle for the external engine: each field models one of the SQL /
PostGIS round trips issued by `SpatialValidator`, plus the haversine of
`geohash.distance_meters`. -/
structure SpatialDb where
  land_query : ℚ → ℚ → Except String (Option Bool)
  zone_query : ℚ → ℚ → Except String (Option (String × Option String × Option String))
  geometry_valid_query : String → Except String Bool
  overlaps_query : String → String → Except String (List (String × Option String × ℚ))
  wards_query : String → Except String (List (String × Option String))
  haversine : ℚ → ℚ → ℚ → ℚ → ℚ

/-- `is_in_sierra_leone` from `geohash.py` with `SIERRA_LEONE_BOUNDS`. -/
def is_in_sierra_leone (lat lng : ℚ) : Bool :=
  decide (6.9 ≤ lat) && decide (lat ≤ 10.0) && decide (-13.5 ≤ lng) && decide (lng ≤ -10.3)

/-- `SpatialValidator._check_bounds`. -/
def check_bounds (latitude longitude : ℚ) : ValidationResult :=
  if !is_in_sierra_leone latitude longitude then
    ⟨.COORDINATE_BOUNDS, .FAILED, "Coordinates are outside Sierra Leone", none,
      some latitude, some longitude⟩
  else
    ⟨.COORDINATE_BOUNDS, .PASSED, "Coordinates within Sierra Leone bounds", none,
      some latitude, some longitude⟩

/-- `SpatialValidator._check_on_land`: a missing scalar warns, `false`
fails, an exception is downgraded to a warning with the exception
text. -/
def check_on_land (db : SpatialDb) (latitude longitude : ℚ) : ValidationResult :=
  match db.land_query latitude longitude with
  | .error e =>
      ⟨.LAND_CHECK, .WARNING, "Could not verify land boundary: " ++ e, none,
        some latitude, some longitude⟩
  | .ok none =>
      ⟨.LAND_CHECK, .WARNING, "Land boundary data not available for validation", none,
        some latitude, some longitude⟩
  | .ok (some false) =>
      ⟨.LAND_CHECK, .FAILED, "Address point is not on land (possibly water/ocean)", none,
        some latitude, some longitude⟩
  | .ok (some true) =>
      ⟨.LAND_CHECK, .PASSED, "Address point is on land", none, some latitude, some longitude⟩

/-- The guard `if expected_zone_code and found_zone != expected_zone_code`
of `_check_zone_containment` (an empty expected code is falsy). -/
def zone_mismatch (expected : Option String) (found : String) : Bool :=
  match expected with
  | some ec => !ec.isEmpty && found != ec
  | none => false

/-- `SpatialValidator._check_zone_containment`. -/
def check_zone_containment (db : SpatialDb) (latitude longitude : ℚ)
    (expected_zone_code : Option String) : ValidationResult :=
  match db.zone_query latitude longitude with
  | .error e =>
      ⟨.ZONE_CONTAINMENT, .WARNING, "Could not verify zone containment: " ++ e, none,
        some latitude, some longitude⟩
  | .ok none =>
      ⟨.ZONE_CONTAINMENT, .FAILED, "Address point is not inside any postal zone", none,
        some latitude, some longitude⟩
  | .ok (some row) =>
      if zone_mismatch expected_zone_code row.1 then
        ⟨.ZONE_CONTAINMENT, .WARNING,
          "Address is in zone " ++ row.1 ++ ", not expected zone "
            ++ (match expected_zone_code with | some ec => ec | none => ""), none,
          some latitude, some longitude⟩
      else
        ⟨.ZONE_CONTAINMENT, .PASSED, "Address is inside zone " ++ row.1, none,
          some latitude, some longitude⟩

/-- `SpatialValidator._check_geohash_consistency`: decode the stored
geohash back to its center and warn when the haversine distance exceeds
10 meters. -/
def check_geohash_consistency (db : SpatialDb) (latitude longitude : ℚ)
    (geohash : List Char) : ValidationResult :=
  let c := decode_center geohash
  let distance := db.haversine latitude longitude c.1 c.2
  if distance > 10 then
    ⟨.GEOHASH_CONSISTENCY, .WARNING,
      "Geohash center is " ++ toString distance ++ "m from coordinates", none,
      some latitude, some longitude⟩
  else
    ⟨.GEOHASH_CONSISTENCY, .PASSED, "Geohash is consistent with coordinates", none,
      some latitude, some longitude⟩

/-- `SpatialValidator.validate_address_point`: bounds check first with a
short circuit on failure, then land, zone containment, and geohash
consistency at precision 9. -/
def validate_address_point (db : SpatialDb) (latitude longitude : ℚ)
    (zone_code : Option String) : List ValidationResult :=
  let bounds_result := check_bounds latitude longitude
  if bounds_result.status = ValidationStatus.FAILED then [bounds_result]
  else
    [bounds_result, check_on_land db latitude longitude,
      check_zone_containment db latitude longitude zone_code,
      check_geohash_consistency db latitude longitude (encode latitude longitude 9)]

/-- `SpatialValidator._check_geometry_valid`: invalid geometry fails;
an exception also FAILS (with the error text), unlike every other
check. -/
def check_geometry_valid (db : SpatialDb) (zone_code wkt : String) : ValidationResult :=
  match db.geometry_valid_query wkt with
  | .error e =>
      ⟨.GEOMETRY_VALID, .FAILED, "Geometry validation error: " ++ e, some zone_code,
        none, none⟩
  | .ok v =>
      if !v then
        ⟨.GEOMETRY_VALID, .FAILED, "Zone " ++ zone_code ++ " has invalid geometry",
          some zone_code, none, none⟩
      else
        ⟨.GEOMETRY_VALID, .PASSED, "Zone geometry is valid", some zone_code, none, none⟩

/-- `SpatialValidator._check_zone_overlaps`: the query already excludes
the zone itself and caps the rows at five; any row fails, an exception
is downgraded to a warning. -/
def check_zone_overlaps (db : SpatialDb) (zone_code wkt : String) : ValidationResult :=
  match db.overlaps_query zone_code wkt with
  | .error e =>
      ⟨.ZONE_OVERLAP, .WARNING, "Could not check zone overlaps: " ++ e, some zone_code,
        none, none⟩
  | .ok rows =>
      if !rows.isEmpty then
        ⟨.ZONE_OVERLAP, .FAILED,
          "Zone overlaps with " ++ toString rows.length ++ " other zone(s)", some zone_code,
          none, none⟩
      else
        ⟨.ZONE_OVERLAP, .PASSED, "Zone does not overlap other zones", some zone_code,
          none, none⟩

/-- `SpatialValidator._check_ward_boundary_crossing`: crossing a ward is
only a warning, and so is an exception. -/
def check_ward_boundary_crossing (db : SpatialDb) (zone_code wkt : String) :
    ValidationResult :=
  match db.wards_query wkt with
  | .error e =>
      ⟨.BOUNDARY_CROSSING, .WARNING, "Ward boundary check unavailable: " ++ e,
        some zone_code, none, none⟩
  | .ok rows =>
      if !rows.isEmpty then
        ⟨.BOUNDARY_CROSSING, .WARNING,
          "Zone crosses " ++ toString rows.length ++ " ward boundary(ies)", some zone_code,
          none, none⟩
      else
        ⟨.BOUNDARY_CROSSING, .PASSED, "Zone does not cross ward boundaries", some zone_code,
          none, none⟩

/-- `SpatialValidator.validate_zone_geometry`: geometry validity,
overlaps, ward crossing, in that order. -/
def validate_zone_geometry (db : SpatialDb) (zone_code wkt : String) :
    List ValidationResult :=
  [check_geometry_valid db zone_code wkt, check_zone_overlaps db zone_code wkt,
    check_ward_boundary_crossing db zone_code wkt]

lemma check_bounds_failed (latitude longitude : ℚ)
    (h : is_in_sierra_leone latitude longitude = false) :
    check_bounds latitude longitude
      = ⟨.COORDINATE_BOUNDS, .FAILED, "Coordinates are outside Sierra Leone", none,
          some latitude, some longitude⟩ := by
  unfold check_bounds
  rw [h]
  exact rfl

lemma check_bounds_passed (latitude longitude : ℚ)
    (h : is_in_sierra_leone latitude longitude = true) :
    check_bounds latitude longitude
      = ⟨.COORDINATE_BOUNDS, .PASSED, "Coordinates within Sierra Leone bounds", none,
          some latitude, some longitude⟩ := by
  unfold check_bounds
  rw [h]
  exact rfl

lemma check_on_land_type (db : SpatialDb) (latitude longitude : ℚ) :
    (check_on_land db latitude longitude).validation_type = .LAND_CHECK := by
  unfold check_on_land
  split <;> rfl

lemma check_zone_containment_type (db : SpatialDb) (latitude longitude : ℚ)
    (zc : Option String) :
    (check_zone_containment db latitude longitude zc).validation_type
      = .ZONE_CONTAINMENT := by
  unfold check_zone_containment
  split
  · rfl
  · rfl
  · split <;> rfl

lemma check_geohash_consistency_type (db : SpatialDb) (latitude longitude : ℚ)
    (g : List Char) :
    (check_geohash_consistency db latitude longitude g).validation_type
      = .GEOHASH_CONSISTENCY := by
  simp only [check_geohash_consistency]
  split <;> rfl

/-- C8: for every point outside the national bounding box,
`validate_address_point` returns exactly the coordinate-bounds result
with status `FAILED` and nothing else; for every point inside the box it
returns exactly four results, in the order bounds check, land check,
zone containment, geohash consistency. -/
theorem validate_address_point_pipeline (db : SpatialDb) (latitude longitude : ℚ)
    (zc : Option String) :
    (is_in_sierra_leone latitude longitude = false →
      validate_address_point db latitude longitude zc = [check_bounds latitude longitude] ∧
      (check_bounds latitude longitude).status = .FAILED ∧
      (check_bounds latitude longitude).validation_type = .COORDINATE_BOUNDS) ∧
    (is_in_sierra_leone latitude longitude = true →
      validate_address_point db latitude longitude zc
        = [check_bounds latitude longitude, check_on_land db latitude longitude,
            check_zone_containment db latitude longitude zc,
            check_geohash_consistency db latitude longitude (encode latitude longitude 9)] ∧
      (validate_address_point db latitude longitude zc).length = 4 ∧
      (check_bounds latitude longitude).status = .PASSED ∧
      (check_bounds latitude longitude).validation_type = .COORDINATE_BOUNDS ∧
      (check_on_land db latitude longitude).validation_type = .LAND_CHECK ∧
      (check_zone_containment db latitude longitude zc).validation_type = .ZONE_CONTAINMENT ∧
      (check_geohash_consistency db latitude longitude
          (encode latitude longitude 9)).validation_type = .GEOHASH_CONSISTENCY) := by
  constructor
  · intro h
    have hb := check_bounds_failed latitude longitude h
    refine ⟨?_, by rw [hb], by rw [hb]⟩
    unfold validate_address_point
    rw [hb]
    exact rfl
  · intro h
    have hb := check_bounds_passed latitude longitude h
    have hlist : validate_address_point db latitude longitude zc
        = [check_bounds latitude longitude, check_on_land db latitude longitude,
            check_zone_containment db latitude longitude zc,
            check_geohash_consistency db latitude longitude (encode latitude longitude 9)] := by
      unfold validate_address_point
      rw [hb]
      exact rfl
    refine ⟨hlist, by rw [hlist]; rfl, by rw [hb], by rw [hb],
      check_on_land_type db latitude longitude,
      check_zone_containment_type db latitude longitude zc,
      check_geohash_consistency_type db latitude longitude (encode latitude longitude 9)⟩

/-- A benign oracle: every query succeeds. -/
def spatialDbOk : SpatialDb :=
  { land_query := fun _ _ => .ok (some true),
    zone_query := fun _ _ => .ok (some ("1105", some "Kissy", some "Western Urban")),
    geometry_valid_query := fun _ => .ok true,
    overlaps_query := fun _ _ => .ok [],
    wards_query := fun _ => .ok [],
    haversine := fun _ _ _ _ => 0 }

/-- Witness for C8: the point (0, 0) is outside the national box and
short-circuits; the point (8, -13) is inside and yields the full
four-check list. -/
theorem validate_address_point_pipeline_witness :
    is_in_sierra_leone 0 0 = false ∧
    validate_address_point spatialDbOk 0 0 none = [check_bounds 0 0] ∧
    (check_bounds 0 0).status = .FAILED ∧
    is_in_sierra_leone 8 (-13) = true ∧
    validate_address_point spatialDbOk 8 (-13) none
      = [check_bounds 8 (-13), check_on_land spatialDbOk 8 (-13),
          check_zone_containment spatialDbOk 8 (-13) none,
          check_geohash_consistency spatialDbOk 8 (-13) (encode 8 (-13) 9)] :=
  ⟨by norm_num [is_in_sierra_leone],
    ((validate_address_point_pipeline spatialDbOk 0 0 none).1
      (by norm_num [is_in_sierra_leone])).1,
    ((validate_address_point_pipeline spatialDbOk 0 0 none).1
      (by norm_num [is_in_sierra_leone])).2.1,
    by norm_num [is_in_sierra_leone],
    ((validate_address_point_pipeline spatialDbOk 8 (-13) none).2
      (by norm_num [is_in_sierra_leone])).1⟩

/-- An oracle whose every round trip raises. -/
def spatialDbErr : SpatialDb :=
  { land_query := fun _ _ => .error "connection lost",
    zone_query := fun _ _ => .error "connection lost",
    geometry_valid_query := fun _ => .error "connection lost",
    overlaps_query := fun _ _ => .error "connection lost",
    wards_query := fun _ => .error "connection lost",
    haversine := fun _ _ _ _ => 0 }

/-- Counterexample to C9 as stated: when the geometry-engine call inside
`_check_geometry_valid` raises, the recorded result has status `FAILED`,
not `WARNING`, and it is the first entry of the zone-geometry result
list. -/
theorem check_geometry_valid_error_counterexample :
    spatialDbErr.geometry_valid_query "POLYGON((0 0,1 0,1 1,0 0))" = .error "connection lost" ∧
    (check_geometry_valid spatialDbErr "1105" "POLYGON((0 0,1 0,1 1,0 0))").status = .FAILED ∧
    (check_geometry_valid spatialDbErr "1105" "POLYGON((0 0,1 0,1 1,0 0))").status ≠ .WARNING ∧
    (validate_zone_geometry spatialDbErr "1105" "POLYGON((0 0,1 0,1 1,0 0))").head?
      = some (check_geometry_valid spatialDbErr "1105" "POLYGON((0 0,1 0,1 1,0 0))") :=
  ⟨rfl, rfl, by decide, rfl⟩

/-- C9 (amended): when the external engine call raises, the land, zone
containment, zone overlap, and ward crossing checks each record a
`WARNING` carrying the exception text, and every such result is present
in its pipeline result list; the geometry-validity check is the
exception: an engine error there is recorded as `FAILED` (with the error
text), not `WARNING`. -/
theorem engine_error_results (db : SpatialDb) (latitude longitude : ℚ) (zc : Option String)
    (zone_code wkt e : String) :
    (db.land_query latitude longitude = .error e →
      (check_on_land db latitude longitude).status = .WARNING ∧
      (check_on_land db latitude longitude).message
        = "Could not verify land boundary: " ++ e) ∧
    (db.zone_query latitude longitude = .error e →
      (check_zone_containment db latitude longitude zc).status = .WARNING ∧
      (check_zone_containment db latitude longitude zc).message
        = "Could not verify zone containment: " ++ e) ∧
    (db.overlaps_query zone_code wkt = .error e →
      (check_zone_overlaps db zone_code wkt).status = .WARNING ∧
      (check_zone_overlaps db zone_code wkt).message
        = "Could not check zone overlaps: " ++ e) ∧
    (db.wards_query wkt = .error e →
      (check_ward_boundary_crossing db zone_code wkt).status = .WARNING ∧
      (check_ward_boundary_crossing db zone_code wkt).message
        = "Ward boundary check unavailable: " ++ e) ∧
    (db.geometry_valid_query wkt = .error e →
      (check_geometry_valid db zone_code wkt).status = .FAILED ∧
      (check_geometry_valid db zone_code wkt).status ≠ .WARNING ∧
      (check_geometry_valid db zone_code wkt).message
        = "Geometry validation error: " ++ e) ∧
    (check_geometry_valid db zone_code wkt ∈ validate_zone_geometry db zone_code wkt ∧
      check_zone_overlaps db zone_code wkt ∈ validate_zone_geometry db zone_code wkt ∧
      check_ward_boundary_crossing db zone_code wkt
        ∈ validate_zone_geometry db zone_code wkt) ∧
    (is_in_sierra_leone latitude longitude = true →
      check_on_land db latitude longitude ∈ validate_address_point db latitude longitude zc ∧
      check_zone_containment db latitude longitude zc
        ∈ validate_address_point db latitude longitude zc) := by
  refine ⟨?_, ?_, ?_, ?_, ?_, ?_, ?_⟩
  · intro h
    unfold check_on_land
    rw [h]
    exact ⟨rfl, rfl⟩
  · intro h
    unfold check_zone_containment
    rw [h]
    exact ⟨rfl, rfl⟩
  · intro h
    unfold check_zone_overlaps
    rw [h]
    exact ⟨rfl, rfl⟩
  · intro h
    unfold check_ward_boundary_crossing
    rw [h]
    exact ⟨rfl, rfl⟩
  · intro h
    unfold check_geometry_valid
    rw [h]
    exact ⟨rfl, by intro hcon; exact ValidationStatus.noConfusion hcon, rfl⟩
  · unfold validate_zone_geometry
    exact ⟨by simp, by simp, by simp⟩
  · intro h
    have hlist := ((validate_address_point_pipeline db latitude longitude zc).2 h).1
    rw [hlist]
    exact ⟨by simp, by simp⟩

/-- Witness for the amended C9 against the all-failing oracle
`spatialDbErr`. -/
theorem engine_error_results_witness :
    spatialDbErr.land_query 8 (-13) = .error "connection lost" ∧
    (check_on_land spatialDbErr 8 (-13)).status = .WARNING ∧
    (check_on_land spatialDbErr 8 (-13)).message
      = "Could not verify land boundary: " ++ "connection lost" ∧
    spatialDbErr.zone_query 8 (-13) = .error "connection lost" ∧
    (check_zone_containment spatialDbErr 8 (-13) none).status = .WARNING ∧
    spatialDbErr.overlaps_query "1105" "POLYGON" = .error "connection lost" ∧
    (check_zone_overlaps spatialDbErr "1105" "POLYGON").status = .WARNING ∧
    spatialDbErr.wards_query "POLYGON" = .error "connection lost" ∧
    (check_ward_boundary_crossing spatialDbErr "1105" "POLYGON").status = .WARNING ∧
    spatialDbErr.geometry_valid_query "POLYGON" = .error "connection lost" ∧
    (check_geometry_valid spatialDbErr "1105" "POLYGON").status = .FAILED :=
  ⟨rfl,
    ((engine_error_results spatialDbErr 8 (-13) none "1105" "POLYGON" "connection lost").1
      rfl).1,
    ((engine_error_results spatialDbErr 8 (-13) none "1105" "POLYGON" "connection lost").1
      rfl).2,
    rfl,
    ((engine_error_results spatialDbErr 8 (-13) none "1105" "POLYGON" "connection lost").2.1
      rfl).1,
    rfl,
    ((engine_error_results spatialDbErr 8 (-13) none "1105" "POLYGON"
      "connection lost").2.2.1 rfl).1,
    rfl,
    ((engine_error_results spatialDbErr 8 (-13) none "1105" "POLYGON"
      "connection lost").2.2.2.1 rfl).1,
    rfl,
    ((engine_error_results spatialDbErr 8 (-13) none "1105" "POLYGON"
      "connection lost").2.2.2.2.1 rfl).1⟩
